import Mathlib

/-!
Verification of the sub-grid burning area (SGBA) computation of pyrolib.

The development embeds `src/pyrolib/blaze/subgrid_burning_area.py` (the
current module) and `src/pyrolib/blaze.py` (the older module) into Lean.
Grids are modelled as total functions `ℕ → ℕ → ℚ`; the values written by
`np.empty` are unspecified, so every function that allocates such an array
takes the corresponding initial grid as an explicit parameter.  Floating
point arithmetic is modelled by exact rational arithmetic.  The raising of
a Python `KeyError` (and, for the bounds-checked variants, an `IndexError`)
is modelled with `Except`.
-/

/-- A two-dimensional grid of rationals, indexed as `g j i` (row `j`, column `i`),
mirroring the numpy indexing `g[j, i]`. -/
abbrev Grid := ℕ → ℕ → ℚ

/-- `upd g j i v` is the grid `g` after the assignment `g[j, i] = v`. -/
def upd (g : Grid) (j i : ℕ) (v : ℚ) : Grid := fun j' i' =>
  if j' = j ∧ i' = i then v else g j' i'

/-- The row-major list of interior cells `(j, i)` visited by the double loop
`for j in range(1, ny-1): for i in range(1, nx-1)`. -/
def interiorCells (nx ny : ℕ) : List (ℕ × ℕ) :=
  (List.range' 1 (ny - 2)).flatMap fun j => (List.range' 1 (nx - 2)).map fun i => (j, i)

/-- The interior-cell predicate `1 <= j < ny - 1` and `1 <= i < nx - 1`. -/
def Interior (nx ny j i : ℕ) : Prop :=
  1 ≤ j ∧ j < ny - 1 ∧ 1 ≤ i ∧ i < nx - 1

instance (nx ny j i : ℕ) : Decidable (Interior nx ny j i) :=
  inferInstanceAs (Decidable (1 ≤ j ∧ j < ny - 1 ∧ 1 ≤ i ∧ i < nx - 1))

/-- `SGBA_WA` from `subgrid_burning_area.py` (identical in `blaze.py`):
each interior cell receives the 9-point stencil value, every other cell keeps
the unspecified content `init` of `np.empty((ny, nx))`. -/
def SGBA_WA (phi : Grid) (nx ny : ℕ) (init : Grid) : Grid := fun j i =>
  if Interior nx ny j i then
    9/16 * phi j i
      + 3/32 * (phi j (i-1) + phi (j-1) i + phi j (i+1) + phi (j+1) i)
      + 1/64 * (phi (j-1) (i-1) + phi (j-1) (i+1) + phi (j+1) (i-1) + phi (j+1) (i+1))
  else init j i

/-- `np.sign` on a rational. -/
def sgn (x : ℚ) : ℤ := if 0 < x then 1 else if x < 0 then -1 else 0

/-- One crossing value `int(0.5*np.sign(a - 0.5) - 0.5*np.sign(b - 0.5))`:
Python `int()` truncates toward zero, which is `Int.tdiv` by 2 of the
difference of the two signs. -/
def crossD (a b : ℚ) : ℤ := Int.tdiv (sgn (a - 1/2) - sgn (b - 1/2)) 2

/-- The case identifier `C = (1+D1) + 3*(1+D2) + 9*(1+D3) + 27*(1+D4)` with
`D1 = crossD P1 P2`, `D2 = crossD P2 P3`, `D3 = crossD P4 P3`, `D4 = crossD P1 P4`. -/
def caseId (P1 P2 P3 P4 : ℚ) : ℤ :=
  (1 + crossD P1 P2) + 3 * (1 + crossD P2 P3) + 9 * (1 + crossD P4 P3) + 27 * (1 + crossD P1 P4)

/-- `_surf68`: area of a south-east fire triangle. -/
def surf68 (phi1 phi2 phi4 : ℚ) : ℚ :=
  (1/2 - phi1)^2 / (2 * (phi2 - phi1) * (phi4 - phi1))

/-- `_surf70`: area of a south fire trapeze. -/
def surf70 (phi1 phi2 phi3 phi4 : ℚ) : ℚ :=
  1/2 * ((1/2 - phi1) / (phi4 - phi1) + (1/2 - phi2) / (phi3 - phi2))

/-- `_surf22`: area of a north-east fire triangle. -/
def surf22 (phi1 phi3 phi4 : ℚ) : ℚ :=
  (phi4 - 1/2)^2 / (-2 * (phi4 - phi1) * (phi3 - phi4))

/-- `QUADRANT_CASE_DICT`: the 13-entry dictionary from case identifier to
area formula; `none` models an absent key. -/
def QUADRANT_CASE_DICT (C : ℤ) : Option (ℚ → ℚ → ℚ → ℚ → ℚ) :=
  if C = 68 then some fun P1 P2 _ P4 => surf68 P1 P2 P4
  else if C = 12 then some fun P1 P2 _ P4 => 1 - surf68 P1 P2 P4
  else if C = 70 then some fun P1 P2 P3 P4 => surf70 P1 P2 P3 P4
  else if C = 10 then some fun P1 P2 P3 P4 => 1 - surf70 P1 P2 P3 P4
  else if C = 22 then some fun P1 _ P3 P4 => surf22 P1 P3 P4
  else if C = 42 then some fun P1 P2 P3 _ => surf22 P1 P3 P2
  else if C = 38 then some fun P1 P2 P3 _ => 1 - surf22 P1 P3 P2
  else if C = 50 then some fun P1 P2 P3 P4 => surf70 P1 P4 P3 P2
  else if C = 30 then some fun P1 P2 P3 P4 => 1 - surf70 P1 P4 P3 P2
  else if C = 28 then some fun _ P2 P3 P4 => surf68 P3 P2 P4
  else if C = 52 then some fun _ P2 P3 P4 => 1 - surf68 P3 P2 P4
  else if C = 24 then some fun P1 P2 P3 P4 => surf22 P1 P3 P4 + surf22 P1 P3 P2
  else if C = 56 then some fun P1 P2 P3 P4 => surf68 P1 P2 P4 + surf68 P3 P2 P4
  else none

/-- Errors of the embedded computation: `keyErr C` models the Python
`KeyError` raised (after a print) on an unmapped case identifier `C`;
`idxErr` models a numpy `IndexError` on an out-of-bounds read; `divErr` is
used only by the guarded formula variants below. -/
inductive Err where
  | keyErr : ℤ → Err
  | idxErr : Err
  | divErr : Err
deriving DecidableEq

/-- The body of the cell loop of `_compute_quadrant_area`
(`subgrid_burning_area.py`, lines 118-146): saturation short-circuits,
then dictionary dispatch on the case identifier; a missing key raises. -/
def quadrantAreaCell (P1 P2 P3 P4 : ℚ) : Except Err ℚ :=
  if 1/2 < P1 ∧ 1/2 < P2 ∧ 1/2 < P3 ∧ 1/2 < P4 then .ok 1
  else if P1 < 1/2 ∧ P2 < 1/2 ∧ P3 < 1/2 ∧ P4 < 1/2 then .ok 0
  else
    match QUADRANT_CASE_DICT (caseId P1 P2 P3 P4) with
    | some f => .ok (f P1 P2 P3 P4)
    | none => .error (.keyErr (caseId P1 P2 P3 P4))

/-- One step of the cell loop of `_compute_quadrant_area`: on an already
raised exception nothing more happens; otherwise the cell value is computed
and stored, or the cell's exception is propagated. -/
def quadrantStep (p1 p2 p3 p4 : Grid) (acc : Except Err Grid) (ji : ℕ × ℕ) : Except Err Grid :=
  match acc with
  | .error e => .error e
  | .ok A =>
      match quadrantAreaCell (p1 ji.1 ji.2) (p2 ji.1 ji.2) (p3 ji.1 ji.2) (p4 ji.1 ji.2) with
      | .ok v => .ok (upd A ji.1 ji.2 v)
      | .error e => .error e

/-- `_compute_quadrant_area` from `subgrid_burning_area.py`: row-major loop
over the interior cells, starting from the unspecified `np.empty` content
`init`; the first raised `KeyError` aborts the remaining cells. -/
def computeQuadrantArea (p1 p2 p3 p4 : Grid) (nx ny : ℕ) (init : Grid) : Except Err Grid :=
  (interiorCells nx ny).foldl (quadrantStep p1 p2 p3 p4) (.ok init)

/-- `phi_south_west` of `SGBA_EFFR` (interior formula). -/
def phiSouthWest (phi : Grid) : Grid := fun j i =>
  1/4 * (phi (j-1) (i-1) + phi (j-1) i + phi j i + phi j (i-1))

/-- `phi_south` of `SGBA_EFFR` (interior formula). -/
def phiSouth (phi : Grid) : Grid := fun j i => 1/2 * (phi (j-1) i + phi j i)

/-- `phi_south_east` of `SGBA_EFFR` (interior formula). -/
def phiSouthEast (phi : Grid) : Grid := fun j i =>
  1/4 * (phi (j-1) i + phi (j-1) (i+1) + phi j (i+1) + phi j i)

/-- `phi_east` of `SGBA_EFFR` (interior formula). -/
def phiEast (phi : Grid) : Grid := fun j i => 1/2 * (phi j (i+1) + phi j i)

/-- `phi_north_east` of `SGBA_EFFR` (interior formula). -/
def phiNorthEast (phi : Grid) : Grid := fun j i =>
  1/4 * (phi j i + phi j (i+1) + phi (j+1) (i+1) + phi (j+1) i)

/-- `phi_north` of `SGBA_EFFR` (interior formula). -/
def phiNorth (phi : Grid) : Grid := fun j i => 1/2 * (phi (j+1) i + phi j i)

/-- `phi_north_west` of `SGBA_EFFR` (interior formula). -/
def phiNorthWest (phi : Grid) : Grid := fun j i =>
  1/4 * (phi j (i-1) + phi j i + phi (j+1) i + phi (j+1) (i-1))

/-- `phi_west` of `SGBA_EFFR` (interior formula). -/
def phiWest (phi : Grid) : Grid := fun j i => 1/2 * (phi j (i-1) + phi j i)

/-- `SGBA_EFFR` from `subgrid_burning_area.py`: the four quadrant arrays are
computed in source order and averaged; `i1 .. i4` are the unspecified
`np.empty` contents of the four `quadrant_area` arrays. -/
def SGBA_EFFR (phi : Grid) (nx ny : ℕ) (i1 i2 i3 i4 : Grid) : Except Err Grid :=
  match computeQuadrantArea (phiSouthWest phi) (phiSouth phi) phi (phiWest phi) nx ny i1 with
  | .error e => .error e
  | .ok q1 =>
    match computeQuadrantArea (phiSouth phi) (phiSouthEast phi) (phiEast phi) phi nx ny i2 with
    | .error e => .error e
    | .ok q2 =>
      match computeQuadrantArea phi (phiEast phi) (phiNorthEast phi) (phiNorth phi) nx ny i3 with
      | .error e => .error e
      | .ok q3 =>
        match computeQuadrantArea (phiWest phi) phi (phiNorth phi) (phiNorthWest phi) nx ny i4 with
        | .error e => .error e
        | .ok q4 => .ok fun j i => 1/4 * (q1 j i + q2 j i + q3 j i + q4 j i)

/-- The body of the cell loop of the older `_compute_quadrant_area` in
`blaze.py` (lines 130-182): same saturation tests and the same thirteen
formulas selected by an `elif` chain on the case identifier, but an unmapped
identifier falls into the `else` arm, which prints a diagnostic and stores 0.
The identifier is recomputed instead of bound once; both are pure. -/
def quadrantAreaCellOld (P1 P2 P3 P4 : ℚ) : ℚ :=
  if 1/2 < P1 ∧ 1/2 < P2 ∧ 1/2 < P3 ∧ 1/2 < P4 then 1
  else if P1 < 1/2 ∧ P2 < 1/2 ∧ P3 < 1/2 ∧ P4 < 1/2 then 0
  else if caseId P1 P2 P3 P4 = 68 then surf68 P1 P2 P4
  else if caseId P1 P2 P3 P4 = 12 then 1 - surf68 P1 P2 P4
  else if caseId P1 P2 P3 P4 = 70 then surf70 P1 P2 P3 P4
  else if caseId P1 P2 P3 P4 = 10 then 1 - surf70 P1 P2 P3 P4
  else if caseId P1 P2 P3 P4 = 22 then surf22 P1 P3 P4
  else if caseId P1 P2 P3 P4 = 42 then surf22 P1 P3 P2
  else if caseId P1 P2 P3 P4 = 38 then 1 - surf22 P1 P3 P2
  else if caseId P1 P2 P3 P4 = 50 then surf70 P1 P4 P3 P2
  else if caseId P1 P2 P3 P4 = 30 then 1 - surf70 P1 P4 P3 P2
  else if caseId P1 P2 P3 P4 = 28 then surf68 P3 P2 P4
  else if caseId P1 P2 P3 P4 = 52 then 1 - surf68 P3 P2 P4
  else if caseId P1 P2 P3 P4 = 24 then surf22 P1 P3 P4 + surf22 P1 P3 P2
  else if caseId P1 P2 P3 P4 = 56 then surf68 P1 P2 P4 + surf68 P3 P2 P4
  else 0

/-- One step of the older cell loop: every cell is written, no exception. -/
def quadrantStepOld (p1 p2 p3 p4 : Grid) (A : Grid) (ji : ℕ × ℕ) : Grid :=
  upd A ji.1 ji.2
    (quadrantAreaCellOld (p1 ji.1 ji.2) (p2 ji.1 ji.2) (p3 ji.1 ji.2) (p4 ji.1 ji.2))

/-- `_compute_quadrant_area` from the older `blaze.py`. -/
def computeQuadrantAreaOld (p1 p2 p3 p4 : Grid) (nx ny : ℕ) (init : Grid) : Grid :=
  (interiorCells nx ny).foldl (quadrantStepOld p1 p2 p3 p4) init

/-- `SGBA_EFFR` from the older `blaze.py`: identical interpolation, quadrant
order and averaging; it differs from the new module only through the default
arm of its per-cell case dispatch. -/
def SGBA_EFFR_old (phi : Grid) (nx ny : ℕ) (i1 i2 i3 i4 : Grid) : Grid := fun j i =>
  1/4 * (computeQuadrantAreaOld (phiSouthWest phi) (phiSouth phi) phi (phiWest phi) nx ny i1 j i
    + computeQuadrantAreaOld (phiSouth phi) (phiSouthEast phi) (phiEast phi) phi nx ny i2 j i
    + computeQuadrantAreaOld phi (phiEast phi) (phiNorthEast phi) (phiNorth phi) nx ny i3 j i
    + computeQuadrantAreaOld (phiWest phi) phi (phiNorth phi) (phiNorthWest phi) nx ny i4 j i)

/-- The saturation-or-valid-identifier condition on one quadrant: all four
corners strictly above 0.5, all strictly below, or a case identifier mapped
by the dictionary. -/
def OkQuad (P1 P2 P3 P4 : ℚ) : Prop :=
  (1/2 < P1 ∧ 1/2 < P2 ∧ 1/2 < P3 ∧ 1/2 < P4)
  ∨ (P1 < 1/2 ∧ P2 < 1/2 ∧ P3 < 1/2 ∧ P4 < 1/2)
  ∨ (QUADRANT_CASE_DICT (caseId P1 P2 P3 P4)).isSome = true

/-- `_surf68` guarded by a zero test of its denominator. -/
def surf68g (phi1 phi2 phi4 : ℚ) : Except Err ℚ :=
  if 2 * (phi2 - phi1) * (phi4 - phi1) = 0 then .error .divErr
  else .ok (surf68 phi1 phi2 phi4)

/-- `_surf70` guarded by zero tests of its two denominators. -/
def surf70g (phi1 phi2 phi3 phi4 : ℚ) : Except Err ℚ :=
  if phi4 - phi1 = 0 ∨ phi3 - phi2 = 0 then .error .divErr
  else .ok (surf70 phi1 phi2 phi3 phi4)

/-- `_surf22` guarded by a zero test of its denominator. -/
def surf22g (phi1 phi3 phi4 : ℚ) : Except Err ℚ :=
  if -2 * (phi4 - phi1) * (phi3 - phi4) = 0 then .error .divErr
  else .ok (surf22 phi1 phi3 phi4)

/-- The dictionary with every entry guarded: any zero denominator in the
entry's formulas is reported as `divErr` before the division. -/
def QUADRANT_CASE_DICT_G (C : ℤ) : Option (ℚ → ℚ → ℚ → ℚ → Except Err ℚ) :=
  if C = 68 then some fun P1 P2 _ P4 => surf68g P1 P2 P4
  else if C = 12 then some fun P1 P2 _ P4 => (surf68g P1 P2 P4).map fun x => 1 - x
  else if C = 70 then some fun P1 P2 P3 P4 => surf70g P1 P2 P3 P4
  else if C = 10 then some fun P1 P2 P3 P4 => (surf70g P1 P2 P3 P4).map fun x => 1 - x
  else if C = 22 then some fun P1 _ P3 P4 => surf22g P1 P3 P4
  else if C = 42 then some fun P1 P2 P3 _ => surf22g P1 P3 P2
  else if C = 38 then some fun P1 P2 P3 _ => (surf22g P1 P3 P2).map fun x => 1 - x
  else if C = 50 then some fun P1 P2 P3 P4 => surf70g P1 P4 P3 P2
  else if C = 30 then some fun P1 P2 P3 P4 => (surf70g P1 P4 P3 P2).map fun x => 1 - x
  else if C = 28 then some fun _ P2 P3 P4 => surf68g P3 P2 P4
  else if C = 52 then some fun _ P2 P3 P4 => (surf68g P3 P2 P4).map fun x => 1 - x
  else if C = 24 then some fun P1 P2 P3 P4 =>
    match surf22g P1 P3 P4, surf22g P1 P3 P2 with
    | Except.ok a, Except.ok b => Except.ok (a + b)
    | Except.error e, _ => Except.error e
    | _, Except.error e => Except.error e
  else if C = 56 then some fun P1 P2 P3 P4 =>
    match surf68g P1 P2 P4, surf68g P3 P2 P4 with
    | Except.ok a, Except.ok b => Except.ok (a + b)
    | Except.error e, _ => Except.error e
    | _, Except.error e => Except.error e
  else none

/-- The cell body with the guarded dictionary. -/
def quadrantAreaCellG (P1 P2 P3 P4 : ℚ) : Except Err ℚ :=
  if 1/2 < P1 ∧ 1/2 < P2 ∧ 1/2 < P3 ∧ 1/2 < P4 then .ok 1
  else if P1 < 1/2 ∧ P2 < 1/2 ∧ P3 < 1/2 ∧ P4 < 1/2 then .ok 0
  else
    match QUADRANT_CASE_DICT_G (caseId P1 P2 P3 P4) with
    | some f => f P1 P2 P3 P4
    | none => .error (.keyErr (caseId P1 P2 P3 P4))

/-- One cell of the bounds-checked `SGBA_WA`.  The stencil of cell `(j, i)`
(with `j, i >= 1` on every visited cell) reads exactly the nine neighbors
`(j-1..j+1, i-1..i+1)` of `phi`, whose actual allocated shape is
`(pny, pnx)`; numpy raises `IndexError` as soon as a read index reaches the
actual shape, i.e. unless `j+1 < pny` and `i+1 < pnx`. -/
def waCellChecked (phi : Grid) (pny pnx j i : ℕ) : Except Err ℚ :=
  if j + 1 < pny ∧ i + 1 < pnx then
    .ok (9/16 * phi j i
      + 3/32 * (phi j (i-1) + phi (j-1) i + phi j (i+1) + phi (j+1) i)
      + 1/64 * (phi (j-1) (i-1) + phi (j-1) (i+1) + phi (j+1) (i-1) + phi (j+1) (i+1)))
  else .error .idxErr

/-- One step of the bounds-checked `SGBA_WA` loop. -/
def waStepChecked (phi : Grid) (pny pnx : ℕ) (acc : Except Err Grid) (ji : ℕ × ℕ) :
    Except Err Grid :=
  match acc with
  | .error e => .error e
  | .ok A =>
    match waCellChecked phi pny pnx ji.1 ji.2 with
    | .ok v => .ok (upd A ji.1 ji.2 v)
    | .error e => .error e

/-- Bounds-checked `SGBA_WA`: `phi` has actual shape `(pny, pnx)` while the
declared dimensions are `nx, ny`.  Neither source module validates that they
agree; the loop simply runs over the declared interior. -/
def SGBA_WA_checked (phi : Grid) (pny pnx nx ny : ℕ) (init : Grid) : Except Err Grid :=
  (interiorCells nx ny).foldl (waStepChecked phi pny pnx) (.ok init)

/-- One cell of the bounds-checked interpolation loop of `SGBA_EFFR`: the
eight auxiliary values of cell `(j, i)` together read exactly the nine
stencil neighbors of `phi`, in bounds iff `j+1 < pny` and `i+1 < pnx`. -/
def interpCellChecked (pny pnx j i : ℕ) : Except Err Unit :=
  if j + 1 < pny ∧ i + 1 < pnx then .ok () else .error .idxErr

/-- Bounds-checked `SGBA_EFFR`: the interpolation loop performs the checked
reads cell by cell and aborts at the first out-of-bounds read; once it
completes, the eight auxiliary arrays hold the interior interpolant values,
the quadrant phase reads them within the declared (allocated) shape, and its
only reads of `phi` repeat reads the interpolation loop already performed,
so the quadrant phase proceeds exactly as in `SGBA_EFFR`. -/
def interpStep (pny pnx : ℕ) (acc : Except Err Unit) (ji : ℕ × ℕ) : Except Err Unit :=
  match acc with
  | .error e => .error e
  | .ok _ => interpCellChecked pny pnx ji.1 ji.2

def SGBA_EFFR_checked (phi : Grid) (pny pnx nx ny : ℕ) (i1 i2 i3 i4 : Grid) :
    Except Err Grid :=
  match (interiorCells nx ny).foldl (interpStep pny pnx) (Except.ok ()) with
  | .error e => .error e
  | .ok _ => SGBA_EFFR phi nx ny i1 i2 i3 i4

/-- The all-zero grid (used as a canonical `np.empty` content in the
concrete computations). -/
def gridZero : Grid := fun _ _ => 0

/-- The spatially constant grid of value 1/2 (every quadrant degenerates). -/
def gridHalf : Grid := fun _ _ => 1/2

/-- A 3-row, 4-column grid: columns 0..2 hold 1, column 3 holds 0. -/
def gridStep : Grid := fun _ i => if i ≤ 2 then 1 else 0

/-- The "triangles" 3x3 test grid of `tests/func/test_fct_blaze.py`:
center 0.6, edge midpoints 0.2, corners 0. -/
def gridTriangles : Grid := fun j i =>
  if j = 1 ∧ i = 1 then 3/5
  else if (j = 1 ∧ (i = 0 ∨ i = 2)) ∨ (i = 1 ∧ (j = 0 ∨ j = 2)) then 1/5
  else 0

/-- The crossing value as written in the specification text,
`D1 = sign(P1-0.5)/2 - sign(P2-0.5)/2`, evaluated exactly (no truncation).
Modelled from the spec for comparison with the code's `crossD`. -/
def specCrossD (a b : ℚ) : ℚ := (sgn (a - 1/2) : ℚ) / 2 - (sgn (b - 1/2) : ℚ) / 2

/-- The grid value actually produced by `SGBA_EFFR` on the triangles grid
with all-zero `np.empty` contents. -/
def STriangles : Grid := fun j i =>
  1/4 * (upd gridZero 1 1 (1/8) j i + upd gridZero 1 1 (1/8) j i
    + upd gridZero 1 1 (1/8) j i + upd gridZero 1 1 (1/8) j i)

lemma interiorCells_mem (nx ny j i : ℕ) :
    (j, i) ∈ interiorCells nx ny ↔ Interior nx ny j i := by
  unfold interiorCells Interior
  simp only [List.mem_flatMap, List.mem_map, List.mem_range'_1, Prod.mk.injEq]
  constructor
  · rintro ⟨j', ⟨hj1, hj2⟩, i', ⟨hi1, hi2⟩, hji, hii⟩
    subst hji; subst hii
    omega
  · rintro ⟨hj1, hj2, hi1, hi2⟩
    exact ⟨j, ⟨hj1, by omega⟩, i, ⟨hi1, by omega⟩, rfl, rfl⟩

/-- Helper: the WA stencil formula at an interior cell. -/
lemma SGBA_WA_interior_eq (phi : Grid) (nx ny : ℕ) (init : Grid) (j i : ℕ)
    (h : Interior nx ny j i) :
    SGBA_WA phi nx ny init j i =
      9/16 * phi j i
        + 3/32 * (phi (j-1) i + phi (j+1) i + phi j (i+1) + phi j (i-1))
        + 1/64 * (phi (j-1) (i-1) + phi (j-1) (i+1) + phi (j+1) (i-1) + phi (j+1) (i+1)) := by
  unfold SGBA_WA
  rw [if_pos h]
  ring

lemma sgn_mem (x : ℚ) : sgn x = 1 ∨ sgn x = 0 ∨ sgn x = -1 := by
  unfold sgn
  split_ifs <;> simp

lemma sgn_eq_one_iff (x : ℚ) : sgn x = 1 ↔ 0 < x := by
  unfold sgn
  split_ifs with h1 h2
  · simp [h1]
  · simp [h1]
  · simp [h1]

lemma sgn_eq_neg_one_iff (x : ℚ) : sgn x = -1 ↔ x < 0 := by
  unfold sgn
  split_ifs with h1 h2
  · constructor
    · intro h; exact absurd h (by decide)
    · intro h; exact absurd h1 (not_lt.mpr h.le)
  · simp [h2]
  · simp [h2]

lemma crossD_mem (a b : ℚ) : -1 ≤ crossD a b ∧ crossD a b ≤ 1 := by
  unfold crossD
  rcases sgn_mem (a - 1/2) with h1 | h1 | h1 <;>
    rcases sgn_mem (b - 1/2) with h2 | h2 | h2 <;>
      rw [h1, h2] <;> decide

lemma crossD_eq_one (a b : ℚ) (h : crossD a b = 1) : 1/2 < a ∧ b < 1/2 := by
  unfold crossD at h
  rcases sgn_mem (a - 1/2) with h1 | h1 | h1 <;>
    rcases sgn_mem (b - 1/2) with h2 | h2 | h2 <;>
      rw [h1, h2] at h <;> first
        | (exact absurd h (by decide))
        | (constructor
           · have := (sgn_eq_one_iff (a - 1/2)).mp h1; linarith
           · have := (sgn_eq_neg_one_iff (b - 1/2)).mp h2; linarith)

lemma crossD_eq_neg_one (a b : ℚ) (h : crossD a b = -1) : a < 1/2 ∧ 1/2 < b := by
  unfold crossD at h
  rcases sgn_mem (a - 1/2) with h1 | h1 | h1 <;>
    rcases sgn_mem (b - 1/2) with h2 | h2 | h2 <;>
      rw [h1, h2] at h <;> first
        | (exact absurd h (by decide))
        | (constructor
           · have := (sgn_eq_neg_one_iff (a - 1/2)).mp h1; linarith
           · have := (sgn_eq_one_iff (b - 1/2)).mp h2; linarith)

lemma foldl_quadrantStep_error (p1 p2 p3 p4 : Grid) (l : List (ℕ × ℕ)) (e : Err) :
    l.foldl (quadrantStep p1 p2 p3 p4) (.error e) = .error e := by
  induction l with
  | nil => rfl
  | cons x xs ih => rw [List.foldl_cons]; exact ih

lemma foldl_quadrantStep_ok (p1 p2 p3 p4 : Grid) (l : List (ℕ × ℕ)) :
    ∀ g A : Grid, l.foldl (quadrantStep p1 p2 p3 p4) (.ok g) = .ok A →
      (∀ ji ∈ l, quadrantAreaCell (p1 ji.1 ji.2) (p2 ji.1 ji.2) (p3 ji.1 ji.2) (p4 ji.1 ji.2)
          = .ok (A ji.1 ji.2))
        ∧ ∀ j i : ℕ, (j, i) ∉ l → A j i = g j i := by
  induction l with
  | nil =>
      intro g A h
      simp only [List.foldl_nil] at h
      obtain rfl : g = A := Except.ok.inj h
      exact ⟨fun ji hji => absurd hji (List.not_mem_nil _), fun _ _ _ => rfl⟩
  | cons x xs ih =>
      intro g A h
      rw [List.foldl_cons] at h
      cases hc : quadrantAreaCell (p1 x.1 x.2) (p2 x.1 x.2) (p3 x.1 x.2) (p4 x.1 x.2) with
      | error e =>
          exfalso
          have hstep : quadrantStep p1 p2 p3 p4 (.ok g) x = .error e := by
            unfold quadrantStep; rw [hc]
          rw [hstep, foldl_quadrantStep_error] at h
          exact Except.noConfusion h
      | ok v =>
          have hstep : quadrantStep p1 p2 p3 p4 (.ok g) x = .ok (upd g x.1 x.2 v) := by
            unfold quadrantStep; rw [hc]
          rw [hstep] at h
          obtain ⟨ih1, ih2⟩ := ih (upd g x.1 x.2 v) A h
          refine ⟨?_, ?_⟩
          · intro ji hji
            rcases List.mem_cons.mp hji with rfl | hmem
            · by_cases hx : ji ∈ xs
              · exact ih1 ji hx
              · have h2 := ih2 ji.1 ji.2 (by simpa using hx)
                have hv : A ji.1 ji.2 = v := by
                  rw [h2]; unfold upd; rw [if_pos ⟨rfl, rfl⟩]
                rw [hc, hv]
            · exact ih1 ji hmem
          · intro j i hni
            have hx : (j, i) ∉ xs := fun hm => hni (List.mem_cons_of_mem _ hm)
            have hne : (j, i) ≠ x := fun hh => hni (hh ▸ List.mem_cons_self _ _)
            rw [ih2 j i hx]
            unfold upd
            rw [if_neg]
            rintro ⟨h1', h2'⟩
            exact hne (by rw [h1', h2'])

lemma foldl_quadrantStep_exists_ok (p1 p2 p3 p4 : Grid) (l : List (ℕ × ℕ)) :
    ∀ g : Grid,
      (∀ ji ∈ l, ∃ v, quadrantAreaCell (p1 ji.1 ji.2) (p2 ji.1 ji.2) (p3 ji.1 ji.2) (p4 ji.1 ji.2)
          = .ok v) →
      ∃ A, l.foldl (quadrantStep p1 p2 p3 p4) (.ok g) = .ok A := by
  induction l with
  | nil => exact fun g _ => ⟨g, rfl⟩
  | cons x xs ih =>
      intro g hall
      obtain ⟨v, hv⟩ := hall x (List.mem_cons_self _ _)
      rw [List.foldl_cons]
      have hstep : quadrantStep p1 p2 p3 p4 (.ok g) x = .ok (upd g x.1 x.2 v) := by
        unfold quadrantStep; rw [hv]
      rw [hstep]
      exact ih _ fun ji hji => hall ji (List.mem_cons_of_mem _ hji)

lemma quadrantAreaCell_error_shape (P1 P2 P3 P4 : ℚ) (e : Err)
    (h : quadrantAreaCell P1 P2 P3 P4 = .error e) :
    e = .keyErr (caseId P1 P2 P3 P4) ∧ QUADRANT_CASE_DICT (caseId P1 P2 P3 P4) = none := by
  unfold quadrantAreaCell at h
  split_ifs at h <;>
    first
      | exact Except.noConfusion h
      | (cases hd : QUADRANT_CASE_DICT (caseId P1 P2 P3 P4) with
         | some f => rw [hd] at h; exact Except.noConfusion h
         | none => rw [hd] at h; exact ⟨(Except.error.inj h).symm, rfl⟩)

lemma foldl_quadrantStep_error_shape (p1 p2 p3 p4 : Grid) (l : List (ℕ × ℕ)) :
    ∀ (g : Grid) (e : Err), l.foldl (quadrantStep p1 p2 p3 p4) (.ok g) = .error e →
      ∃ C, e = .keyErr C := by
  induction l with
  | nil => intro g e h; exact Except.noConfusion h
  | cons x xs ih =>
      intro g e h
      rw [List.foldl_cons] at h
      cases hc : quadrantAreaCell (p1 x.1 x.2) (p2 x.1 x.2) (p3 x.1 x.2) (p4 x.1 x.2) with
      | error e' =>
          have hstep : quadrantStep p1 p2 p3 p4 (.ok g) x = .error e' := by
            unfold quadrantStep; rw [hc]
          rw [hstep, foldl_quadrantStep_error] at h
          obtain rfl : e' = e := Except.error.inj h
          exact ⟨caseId (p1 x.1 x.2) (p2 x.1 x.2) (p3 x.1 x.2) (p4 x.1 x.2),
            (quadrantAreaCell_error_shape _ _ _ _ _ hc).1⟩
      | ok v =>
          have hstep : quadrantStep p1 p2 p3 p4 (.ok g) x = .ok (upd g x.1 x.2 v) := by
            unfold quadrantStep; rw [hc]
          rw [hstep] at h
          exact ih _ _ h

lemma surf68_bounds (P1 P2 P4 : ℚ) (h1 : 1/2 < P1) (h2 : P2 < 1/2) (h4 : P4 < 1/2) :
    0 ≤ surf68 P1 P2 P4 ∧ surf68 P1 P2 P4 ≤ 1/2 := by
  unfold surf68
  have hd : 0 < 2 * (P2 - P1) * (P4 - P1) := by nlinarith
  refine ⟨div_nonneg (sq_nonneg _) hd.le, ?_⟩
  rw [div_le_iff hd]
  have e1 : P1 - 1/2 ≤ P1 - P2 := by linarith
  have e2 : P1 - 1/2 ≤ P1 - P4 := by linarith
  have e0 : (0:ℚ) ≤ P1 - 1/2 := by linarith
  nlinarith [mul_le_mul e1 e2 e0 (by linarith : (0:ℚ) ≤ P1 - P2)]

lemma surf68_bounds' (P1 P2 P4 : ℚ) (h1 : P1 < 1/2) (h2 : 1/2 < P2) (h4 : 1/2 < P4) :
    0 ≤ surf68 P1 P2 P4 ∧ surf68 P1 P2 P4 ≤ 1/2 := by
  unfold surf68
  have hd : 0 < 2 * (P2 - P1) * (P4 - P1) := by nlinarith
  refine ⟨div_nonneg (sq_nonneg _) hd.le, ?_⟩
  rw [div_le_iff hd]
  have e1 : 1/2 - P1 ≤ P2 - P1 := by linarith
  have e2 : 1/2 - P1 ≤ P4 - P1 := by linarith
  have e0 : (0:ℚ) ≤ 1/2 - P1 := by linarith
  nlinarith [mul_le_mul e1 e2 e0 (by linarith : (0:ℚ) ≤ P2 - P1)]

lemma surf22_bounds (P1 P3 P4 : ℚ) (h1 : P1 < 1/2) (h3 : P3 < 1/2) (h4 : 1/2 < P4) :
    0 ≤ surf22 P1 P3 P4 ∧ surf22 P1 P3 P4 ≤ 1/2 := by
  unfold surf22
  have hd : 0 < -2 * (P4 - P1) * (P3 - P4) := by nlinarith
  refine ⟨div_nonneg (sq_nonneg _) hd.le, ?_⟩
  rw [div_le_iff hd]
  have e1 : P4 - 1/2 ≤ P4 - P1 := by linarith
  have e2 : P4 - 1/2 ≤ P4 - P3 := by linarith
  have e0 : (0:ℚ) ≤ P4 - 1/2 := by linarith
  nlinarith [mul_le_mul e1 e2 e0 (by linarith : (0:ℚ) ≤ P4 - P1)]

lemma surf22_bounds' (P1 P3 P4 : ℚ) (h1 : 1/2 < P1) (h3 : 1/2 < P3) (h4 : P4 < 1/2) :
    0 ≤ surf22 P1 P3 P4 ∧ surf22 P1 P3 P4 ≤ 1/2 := by
  unfold surf22
  have hd : 0 < -2 * (P4 - P1) * (P3 - P4) := by nlinarith
  refine ⟨div_nonneg (sq_nonneg _) hd.le, ?_⟩
  rw [div_le_iff hd]
  have e1 : 1/2 - P4 ≤ P1 - P4 := by linarith
  have e2 : 1/2 - P4 ≤ P3 - P4 := by linarith
  have e0 : (0:ℚ) ≤ 1/2 - P4 := by linarith
  nlinarith [mul_le_mul e1 e2 e0 (by linarith : (0:ℚ) ≤ P1 - P4)]

lemma surf70_bounds (P1 P2 P3 P4 : ℚ)
    (h1 : 1/2 < P1) (h2 : 1/2 < P2) (h3 : P3 < 1/2) (h4 : P4 < 1/2) :
    0 ≤ surf70 P1 P2 P3 P4 ∧ surf70 P1 P2 P3 P4 ≤ 1 := by
  unfold surf70
  have r1 : (1/2 - P1) / (P4 - P1) = (P1 - 1/2) / (P1 - P4) := by
    rw [div_eq_div_iff (by linarith) (by linarith)]; ring
  have r2 : (1/2 - P2) / (P3 - P2) = (P2 - 1/2) / (P2 - P3) := by
    rw [div_eq_div_iff (by linarith) (by linarith)]; ring
  rw [r1, r2]
  have t1a : 0 ≤ (P1 - 1/2) / (P1 - P4) := div_nonneg (by linarith) (by linarith)
  have t1b : (P1 - 1/2) / (P1 - P4) ≤ 1 := (div_le_one (by linarith)).mpr (by linarith)
  have t2a : 0 ≤ (P2 - 1/2) / (P2 - P3) := div_nonneg (by linarith) (by linarith)
  have t2b : (P2 - 1/2) / (P2 - P3) ≤ 1 := (div_le_one (by linarith)).mpr (by linarith)
  constructor <;> linarith

lemma surf70_bounds' (P1 P2 P3 P4 : ℚ)
    (h1 : P1 < 1/2) (h2 : P2 < 1/2) (h3 : 1/2 < P3) (h4 : 1/2 < P4) :
    0 ≤ surf70 P1 P2 P3 P4 ∧ surf70 P1 P2 P3 P4 ≤ 1 := by
  unfold surf70
  have t1a : 0 ≤ (1/2 - P1) / (P4 - P1) := div_nonneg (by linarith) (by linarith)
  have t1b : (1/2 - P1) / (P4 - P1) ≤ 1 := (div_le_one (by linarith)).mpr (by linarith)
  have t2a : 0 ≤ (1/2 - P2) / (P3 - P2) := div_nonneg (by linarith) (by linarith)
  have t2b : (1/2 - P2) / (P3 - P2) ≤ 1 := (div_le_one (by linarith)).mpr (by linarith)
  constructor <;> linarith

lemma caseId_68 (P1 P2 P3 P4 : ℚ) (h : caseId P1 P2 P3 P4 = 68) :
    1/2 < P1 ∧ P2 < 1/2 ∧ P4 < 1/2 := by
  unfold caseId at h
  obtain ⟨a1, b1⟩ := crossD_mem P1 P2
  obtain ⟨a2, b2⟩ := crossD_mem P2 P3
  obtain ⟨a3, b3⟩ := crossD_mem P4 P3
  obtain ⟨a4, b4⟩ := crossD_mem P1 P4
  obtain ⟨c1, c2⟩ := crossD_eq_one P1 P2 (by omega)
  obtain ⟨d1, d2⟩ := crossD_eq_one P1 P4 (by omega)
  exact ⟨c1, c2, d2⟩

lemma caseId_12 (P1 P2 P3 P4 : ℚ) (h : caseId P1 P2 P3 P4 = 12) :
    P1 < 1/2 ∧ 1/2 < P2 ∧ 1/2 < P4 := by
  unfold caseId at h
  obtain ⟨a1, b1⟩ := crossD_mem P1 P2
  obtain ⟨a2, b2⟩ := crossD_mem P2 P3
  obtain ⟨a3, b3⟩ := crossD_mem P4 P3
  obtain ⟨a4, b4⟩ := crossD_mem P1 P4
  obtain ⟨c1, c2⟩ := crossD_eq_neg_one P1 P2 (by omega)
  obtain ⟨d1, d2⟩ := crossD_eq_neg_one P1 P4 (by omega)
  exact ⟨c1, c2, d2⟩

lemma caseId_70 (P1 P2 P3 P4 : ℚ) (h : caseId P1 P2 P3 P4 = 70) :
    1/2 < P1 ∧ 1/2 < P2 ∧ P3 < 1/2 ∧ P4 < 1/2 := by
  unfold caseId at h
  obtain ⟨a1, b1⟩ := crossD_mem P1 P2
  obtain ⟨a2, b2⟩ := crossD_mem P2 P3
  obtain ⟨a3, b3⟩ := crossD_mem P4 P3
  obtain ⟨a4, b4⟩ := crossD_mem P1 P4
  obtain ⟨c1, c2⟩ := crossD_eq_one P2 P3 (by omega)
  obtain ⟨d1, d2⟩ := crossD_eq_one P1 P4 (by omega)
  exact ⟨d1, c1, c2, d2⟩

lemma caseId_10 (P1 P2 P3 P4 : ℚ) (h : caseId P1 P2 P3 P4 = 10) :
    P1 < 1/2 ∧ P2 < 1/2 ∧ 1/2 < P3 ∧ 1/2 < P4 := by
  unfold caseId at h
  obtain ⟨a1, b1⟩ := crossD_mem P1 P2
  obtain ⟨a2, b2⟩ := crossD_mem P2 P3
  obtain ⟨a3, b3⟩ := crossD_mem P4 P3
  obtain ⟨a4, b4⟩ := crossD_mem P1 P4
  obtain ⟨c1, c2⟩ := crossD_eq_neg_one P2 P3 (by omega)
  obtain ⟨d1, d2⟩ := crossD_eq_neg_one P1 P4 (by omega)
  exact ⟨d1, c1, c2, d2⟩

lemma caseId_22 (P1 P2 P3 P4 : ℚ) (h : caseId P1 P2 P3 P4 = 22) :
    P1 < 1/2 ∧ P3 < 1/2 ∧ 1/2 < P4 := by
  unfold caseId at h
  obtain ⟨a1, b1⟩ := crossD_mem P1 P2
  obtain ⟨a2, b2⟩ := crossD_mem P2 P3
  obtain ⟨a3, b3⟩ := crossD_mem P4 P3
  obtain ⟨a4, b4⟩ := crossD_mem P1 P4
  obtain ⟨c1, c2⟩ := crossD_eq_one P4 P3 (by omega)
  obtain ⟨d1, d2⟩ := crossD_eq_neg_one P1 P4 (by omega)
  exact ⟨d1, c2, c1⟩

lemma caseId_42 (P1 P2 P3 P4 : ℚ) (h : caseId P1 P2 P3 P4 = 42) :
    P1 < 1/2 ∧ 1/2 < P2 ∧ P3 < 1/2 := by
  unfold caseId at h
  obtain ⟨a1, b1⟩ := crossD_mem P1 P2
  obtain ⟨a2, b2⟩ := crossD_mem P2 P3
  obtain ⟨a3, b3⟩ := crossD_mem P4 P3
  obtain ⟨a4, b4⟩ := crossD_mem P1 P4
  obtain ⟨c1, c2⟩ := crossD_eq_neg_one P1 P2 (by omega)
  obtain ⟨d1, d2⟩ := crossD_eq_one P2 P3 (by omega)
  exact ⟨c1, c2, d2⟩

lemma caseId_38 (P1 P2 P3 P4 : ℚ) (h : caseId P1 P2 P3 P4 = 38) :
    1/2 < P1 ∧ P2 < 1/2 ∧ 1/2 < P3 := by
  unfold caseId at h
  obtain ⟨a1, b1⟩ := crossD_mem P1 P2
  obtain ⟨a2, b2⟩ := crossD_mem P2 P3
  obtain ⟨a3, b3⟩ := crossD_mem P4 P3
  obtain ⟨a4, b4⟩ := crossD_mem P1 P4
  obtain ⟨c1, c2⟩ := crossD_eq_one P1 P2 (by omega)
  obtain ⟨d1, d2⟩ := crossD_eq_neg_one P2 P3 (by omega)
  exact ⟨c1, c2, d2⟩

lemma caseId_50 (P1 P2 P3 P4 : ℚ) (h : caseId P1 P2 P3 P4 = 50) :
    1/2 < P1 ∧ P2 < 1/2 ∧ P3 < 1/2 ∧ 1/2 < P4 := by
  unfold caseId at h
  obtain ⟨a1, b1⟩ := crossD_mem P1 P2
  obtain ⟨a2, b2⟩ := crossD_mem P2 P3
  obtain ⟨a3, b3⟩ := crossD_mem P4 P3
  obtain ⟨a4, b4⟩ := crossD_mem P1 P4
  obtain ⟨c1, c2⟩ := crossD_eq_one P1 P2 (by omega)
  obtain ⟨d1, d2⟩ := crossD_eq_one P4 P3 (by omega)
  exact ⟨c1, c2, d2, d1⟩

lemma caseId_30 (P1 P2 P3 P4 : ℚ) (h : caseId P1 P2 P3 P4 = 30) :
    P1 < 1/2 ∧ 1/2 < P2 ∧ 1/2 < P3 ∧ P4 < 1/2 := by
  unfold caseId at h
  obtain ⟨a1, b1⟩ := crossD_mem P1 P2
  obtain ⟨a2, b2⟩ := crossD_mem P2 P3
  obtain ⟨a3, b3⟩ := crossD_mem P4 P3
  obtain ⟨a4, b4⟩ := crossD_mem P1 P4
  obtain ⟨c1, c2⟩ := crossD_eq_neg_one P1 P2 (by omega)
  obtain ⟨d1, d2⟩ := crossD_eq_neg_one P4 P3 (by omega)
  exact ⟨c1, c2, d2, d1⟩

lemma caseId_28 (P1 P2 P3 P4 : ℚ) (h : caseId P1 P2 P3 P4 = 28) :
    P2 < 1/2 ∧ 1/2 < P3 ∧ P4 < 1/2 := by
  unfold caseId at h
  obtain ⟨a1, b1⟩ := crossD_mem P1 P2
  obtain ⟨a2, b2⟩ := crossD_mem P2 P3
  obtain ⟨a3, b3⟩ := crossD_mem P4 P3
  obtain ⟨a4, b4⟩ := crossD_mem P1 P4
  obtain ⟨c1, c2⟩ := crossD_eq_neg_one P2 P3 (by omega)
  obtain ⟨d1, d2⟩ := crossD_eq_neg_one P4 P3 (by omega)
  exact ⟨c1, c2, d1⟩

lemma caseId_52 (P1 P2 P3 P4 : ℚ) (h : caseId P1 P2 P3 P4 = 52) :
    1/2 < P2 ∧ P3 < 1/2 ∧ 1/2 < P4 := by
  unfold caseId at h
  obtain ⟨a1, b1⟩ := crossD_mem P1 P2
  obtain ⟨a2, b2⟩ := crossD_mem P2 P3
  obtain ⟨a3, b3⟩ := crossD_mem P4 P3
  obtain ⟨a4, b4⟩ := crossD_mem P1 P4
  obtain ⟨c1, c2⟩ := crossD_eq_one P2 P3 (by omega)
  obtain ⟨d1, d2⟩ := crossD_eq_one P4 P3 (by omega)
  exact ⟨c1, c2, d1⟩

lemma caseId_24 (P1 P2 P3 P4 : ℚ) (h : caseId P1 P2 P3 P4 = 24) :
    P1 < 1/2 ∧ 1/2 < P2 ∧ P3 < 1/2 ∧ 1/2 < P4 := by
  unfold caseId at h
  obtain ⟨a1, b1⟩ := crossD_mem P1 P2
  obtain ⟨a2, b2⟩ := crossD_mem P2 P3
  obtain ⟨a3, b3⟩ := crossD_mem P4 P3
  obtain ⟨a4, b4⟩ := crossD_mem P1 P4
  obtain ⟨c1, c2⟩ := crossD_eq_one P2 P3 (by omega)
  obtain ⟨d1, d2⟩ := crossD_eq_one P4 P3 (by omega)
  exact ⟨(crossD_eq_neg_one P1 P2 (by omega)).1, c1, c2, d1⟩

lemma caseId_56 (P1 P2 P3 P4 : ℚ) (h : caseId P1 P2 P3 P4 = 56) :
    1/2 < P1 ∧ P2 < 1/2 ∧ 1/2 < P3 ∧ P4 < 1/2 := by
  unfold caseId at h
  obtain ⟨a1, b1⟩ := crossD_mem P1 P2
  obtain ⟨a2, b2⟩ := crossD_mem P2 P3
  obtain ⟨a3, b3⟩ := crossD_mem P4 P3
  obtain ⟨a4, b4⟩ := crossD_mem P1 P4
  obtain ⟨c1, c2⟩ := crossD_eq_neg_one P2 P3 (by omega)
  obtain ⟨d1, d2⟩ := crossD_eq_neg_one P4 P3 (by omega)
  exact ⟨(crossD_eq_one P1 P2 (by omega)).1, c1, c2, d1⟩

/-- Enumeration of the 13 dictionary entries: a successful lookup determines
the case identifier and the applied formula. -/
lemma dict_some_cases (C : ℤ) (f : ℚ → ℚ → ℚ → ℚ → ℚ)
    (hd : QUADRANT_CASE_DICT C = some f) (P1 P2 P3 P4 : ℚ) :
      C = 68 ∧ f P1 P2 P3 P4 = surf68 P1 P2 P4
    ∨ C = 12 ∧ f P1 P2 P3 P4 = 1 - surf68 P1 P2 P4
    ∨ C = 70 ∧ f P1 P2 P3 P4 = surf70 P1 P2 P3 P4
    ∨ C = 10 ∧ f P1 P2 P3 P4 = 1 - surf70 P1 P2 P3 P4
    ∨ C = 22 ∧ f P1 P2 P3 P4 = surf22 P1 P3 P4
    ∨ C = 42 ∧ f P1 P2 P3 P4 = surf22 P1 P3 P2
    ∨ C = 38 ∧ f P1 P2 P3 P4 = 1 - surf22 P1 P3 P2
    ∨ C = 50 ∧ f P1 P2 P3 P4 = surf70 P1 P4 P3 P2
    ∨ C = 30 ∧ f P1 P2 P3 P4 = 1 - surf70 P1 P4 P3 P2
    ∨ C = 28 ∧ f P1 P2 P3 P4 = surf68 P3 P2 P4
    ∨ C = 52 ∧ f P1 P2 P3 P4 = 1 - surf68 P3 P2 P4
    ∨ C = 24 ∧ f P1 P2 P3 P4 = surf22 P1 P3 P4 + surf22 P1 P3 P2
    ∨ C = 56 ∧ f P1 P2 P3 P4 = surf68 P1 P2 P4 + surf68 P3 P2 P4 := by
  unfold QUADRANT_CASE_DICT at hd
  rcases eq_or_ne C 68 with h | h
  · rw [if_pos h] at hd
    obtain rfl := Option.some.inj hd
    exact Or.inl ⟨h, rfl⟩
  rw [if_neg h] at hd
  rcases eq_or_ne C 12 with h' | h'
  · rw [if_pos h'] at hd
    obtain rfl := Option.some.inj hd
    exact Or.inr (Or.inl ⟨h', rfl⟩)
  rw [if_neg h'] at hd
  rcases eq_or_ne C 70 with h2 | h2
  · rw [if_pos h2] at hd
    obtain rfl := Option.some.inj hd
    exact Or.inr (Or.inr (Or.inl ⟨h2, rfl⟩))
  rw [if_neg h2] at hd
  rcases eq_or_ne C 10 with h3 | h3
  · rw [if_pos h3] at hd
    obtain rfl := Option.some.inj hd
    exact Or.inr (Or.inr (Or.inr (Or.inl ⟨h3, rfl⟩)))
  rw [if_neg h3] at hd
  rcases eq_or_ne C 22 with h4 | h4
  · rw [if_pos h4] at hd
    obtain rfl := Option.some.inj hd
    exact Or.inr (Or.inr (Or.inr (Or.inr (Or.inl ⟨h4, rfl⟩))))
  rw [if_neg h4] at hd
  rcases eq_or_ne C 42 with h5 | h5
  · rw [if_pos h5] at hd
    obtain rfl := Option.some.inj hd
    exact Or.inr (Or.inr (Or.inr (Or.inr (Or.inr (Or.inl ⟨h5, rfl⟩)))))
  rw [if_neg h5] at hd
  rcases eq_or_ne C 38 with h6 | h6
  · rw [if_pos h6] at hd
    obtain rfl := Option.some.inj hd
    exact Or.inr (Or.inr (Or.inr (Or.inr (Or.inr (Or.inr (Or.inl ⟨h6, rfl⟩))))))
  rw [if_neg h6] at hd
  rcases eq_or_ne C 50 with h7 | h7
  · rw [if_pos h7] at hd
    obtain rfl := Option.some.inj hd
    exact Or.inr (Or.inr (Or.inr (Or.inr (Or.inr (Or.inr (Or.inr (Or.inl ⟨h7, rfl⟩)))))))
  rw [if_neg h7] at hd
  rcases eq_or_ne C 30 with h8 | h8
  · rw [if_pos h8] at hd
    obtain rfl := Option.some.inj hd
    exact Or.inr (Or.inr (Or.inr (Or.inr (Or.inr (Or.inr (Or.inr (Or.inr
      (Or.inl ⟨h8, rfl⟩))))))))
  rw [if_neg h8] at hd
  rcases eq_or_ne C 28 with h9 | h9
  · rw [if_pos h9] at hd
    obtain rfl := Option.some.inj hd
    exact Or.inr (Or.inr (Or.inr (Or.inr (Or.inr (Or.inr (Or.inr (Or.inr
      (Or.inr (Or.inl ⟨h9, rfl⟩)))))))))
  rw [if_neg h9] at hd
  rcases eq_or_ne C 52 with h10 | h10
  · rw [if_pos h10] at hd
    obtain rfl := Option.some.inj hd
    exact Or.inr (Or.inr (Or.inr (Or.inr (Or.inr (Or.inr (Or.inr (Or.inr
      (Or.inr (Or.inr (Or.inl ⟨h10, rfl⟩))))))))))
  rw [if_neg h10] at hd
  rcases eq_or_ne C 24 with h11 | h11
  · rw [if_pos h11] at hd
    obtain rfl := Option.some.inj hd
    exact Or.inr (Or.inr (Or.inr (Or.inr (Or.inr (Or.inr (Or.inr (Or.inr
      (Or.inr (Or.inr (Or.inr (Or.inl ⟨h11, rfl⟩)))))))))))
  rw [if_neg h11] at hd
  rcases eq_or_ne C 56 with h12 | h12
  · rw [if_pos h12] at hd
    obtain rfl := Option.some.inj hd
    exact Or.inr (Or.inr (Or.inr (Or.inr (Or.inr (Or.inr (Or.inr (Or.inr
      (Or.inr (Or.inr (Or.inr (Or.inr ⟨h12, rfl⟩)))))))))))
  rw [if_neg h12] at hd
  exact Option.noConfusion hd

/-- A quadrant value actually computed by the cell body always lies in `[0, 1]`. -/
lemma quadrantAreaCell_ok_bounds (P1 P2 P3 P4 v : ℚ)
    (h : quadrantAreaCell P1 P2 P3 P4 = .ok v) : 0 ≤ v ∧ v ≤ 1 := by
  unfold quadrantAreaCell at h
  split_ifs at h with hs1 hs2
  · obtain rfl : (1:ℚ) = v := Except.ok.inj h
    norm_num
  · obtain rfl : (0:ℚ) = v := Except.ok.inj h
    norm_num
  · cases hd : QUADRANT_CASE_DICT (caseId P1 P2 P3 P4) with
    | none => rw [hd] at h; exact Except.noConfusion h
    | some f =>
        rw [hd] at h
        have hv : f P1 P2 P3 P4 = v := Except.ok.inj h
        rcases dict_some_cases _ f hd P1 P2 P3 P4 with
          ⟨hC, hf⟩ | ⟨hC, hf⟩ | ⟨hC, hf⟩ | ⟨hC, hf⟩ | ⟨hC, hf⟩ | ⟨hC, hf⟩ | ⟨hC, hf⟩ |
          ⟨hC, hf⟩ | ⟨hC, hf⟩ | ⟨hC, hf⟩ | ⟨hC, hf⟩ | ⟨hC, hf⟩ | ⟨hC, hf⟩
        · obtain ⟨f1, f2, f4⟩ := caseId_68 P1 P2 P3 P4 hC
          rw [hf] at hv
          obtain ⟨u1, u2⟩ := surf68_bounds P1 P2 P4 f1 f2 f4
          constructor <;> linarith
        · obtain ⟨f1, f2, f4⟩ := caseId_12 P1 P2 P3 P4 hC
          rw [hf] at hv
          obtain ⟨u1, u2⟩ := surf68_bounds' P1 P2 P4 f1 f2 f4
          constructor <;> linarith
        · obtain ⟨f1, f2, f3, f4⟩ := caseId_70 P1 P2 P3 P4 hC
          rw [hf] at hv
          obtain ⟨u1, u2⟩ := surf70_bounds P1 P2 P3 P4 f1 f2 f3 f4
          constructor <;> linarith
        · obtain ⟨f1, f2, f3, f4⟩ := caseId_10 P1 P2 P3 P4 hC
          rw [hf] at hv
          obtain ⟨u1, u2⟩ := surf70_bounds' P1 P2 P3 P4 f1 f2 f3 f4
          constructor <;> linarith
        · obtain ⟨f1, f3, f4⟩ := caseId_22 P1 P2 P3 P4 hC
          rw [hf] at hv
          obtain ⟨u1, u2⟩ := surf22_bounds P1 P3 P4 f1 f3 f4
          constructor <;> linarith
        · obtain ⟨f1, f2, f3⟩ := caseId_42 P1 P2 P3 P4 hC
          rw [hf] at hv
          obtain ⟨u1, u2⟩ := surf22_bounds P1 P3 P2 f1 f3 f2
          constructor <;> linarith
        · obtain ⟨f1, f2, f3⟩ := caseId_38 P1 P2 P3 P4 hC
          rw [hf] at hv
          obtain ⟨u1, u2⟩ := surf22_bounds' P1 P3 P2 f1 f3 f2
          constructor <;> linarith
        · obtain ⟨f1, f2, f3, f4⟩ := caseId_50 P1 P2 P3 P4 hC
          rw [hf] at hv
          obtain ⟨u1, u2⟩ := surf70_bounds P1 P4 P3 P2 f1 f4 f3 f2
          constructor <;> linarith
        · obtain ⟨f1, f2, f3, f4⟩ := caseId_30 P1 P2 P3 P4 hC
          rw [hf] at hv
          obtain ⟨u1, u2⟩ := surf70_bounds' P1 P4 P3 P2 f1 f4 f3 f2
          constructor <;> linarith
        · obtain ⟨f2, f3, f4⟩ := caseId_28 P1 P2 P3 P4 hC
          rw [hf] at hv
          obtain ⟨u1, u2⟩ := surf68_bounds P3 P2 P4 f3 f2 f4
          constructor <;> linarith
        · obtain ⟨f2, f3, f4⟩ := caseId_52 P1 P2 P3 P4 hC
          rw [hf] at hv
          obtain ⟨u1, u2⟩ := surf68_bounds' P3 P2 P4 f3 f2 f4
          constructor <;> linarith
        · obtain ⟨f1, f2, f3, f4⟩ := caseId_24 P1 P2 P3 P4 hC
          rw [hf] at hv
          obtain ⟨u1, u2⟩ := surf22_bounds P1 P3 P4 f1 f3 f4
          obtain ⟨w1, w2⟩ := surf22_bounds P1 P3 P2 f1 f3 f2
          constructor <;> linarith
        · obtain ⟨f1, f2, f3, f4⟩ := caseId_56 P1 P2 P3 P4 hC
          rw [hf] at hv
          obtain ⟨u1, u2⟩ := surf68_bounds P1 P2 P4 f1 f2 f4
          obtain ⟨w1, w2⟩ := surf68_bounds P3 P2 P4 f3 f2 f4
          constructor <;> linarith

lemma SGBA_EFFR_ok_elim (phi : Grid) (nx ny : ℕ) (i1 i2 i3 i4 S : Grid)
    (h : SGBA_EFFR phi nx ny i1 i2 i3 i4 = .ok S) :
    ∃ q1 q2 q3 q4 : Grid,
      computeQuadrantArea (phiSouthWest phi) (phiSouth phi) phi (phiWest phi) nx ny i1
        = .ok q1 ∧
      computeQuadrantArea (phiSouth phi) (phiSouthEast phi) (phiEast phi) phi nx ny i2
        = .ok q2 ∧
      computeQuadrantArea phi (phiEast phi) (phiNorthEast phi) (phiNorth phi) nx ny i3
        = .ok q3 ∧
      computeQuadrantArea (phiWest phi) phi (phiNorth phi) (phiNorthWest phi) nx ny i4
        = .ok q4 ∧
      S = fun j i => 1/4 * (q1 j i + q2 j i + q3 j i + q4 j i) := by
  unfold SGBA_EFFR at h
  cases h1 : computeQuadrantArea (phiSouthWest phi) (phiSouth phi) phi (phiWest phi) nx ny i1 with
  | error e => rw [h1] at h; exact Except.noConfusion h
  | ok q1 =>
  rw [h1] at h
  cases h2 : computeQuadrantArea (phiSouth phi) (phiSouthEast phi) (phiEast phi) phi nx ny i2 with
  | error e => rw [h2] at h; exact Except.noConfusion h
  | ok q2 =>
  rw [h2] at h
  cases h3 : computeQuadrantArea phi (phiEast phi) (phiNorthEast phi) (phiNorth phi) nx ny i3 with
  | error e => rw [h3] at h; exact Except.noConfusion h
  | ok q3 =>
  rw [h3] at h
  cases h4 : computeQuadrantArea (phiWest phi) phi (phiNorth phi) (phiNorthWest phi) nx ny i4 with
  | error e => rw [h4] at h; exact Except.noConfusion h
  | ok q4 =>
  rw [h4] at h
  exact ⟨q1, q2, q3, q4, rfl, rfl, rfl, rfl, (Except.ok.inj h).symm⟩

lemma computeQuadrantArea_ok_interior (p1 p2 p3 p4 : Grid) (nx ny : ℕ) (init A : Grid)
    (h : computeQuadrantArea p1 p2 p3 p4 nx ny init = .ok A)
    (j i : ℕ) (hin : Interior nx ny j i) :
    quadrantAreaCell (p1 j i) (p2 j i) (p3 j i) (p4 j i) = .ok (A j i) := by
  have hmem := (interiorCells_mem nx ny j i).mpr hin
  exact (foldl_quadrantStep_ok p1 p2 p3 p4 (interiorCells nx ny) init A h).1 (j, i) hmem

/-- Helper: an interior cell of a successful `SGBA_EFFR` output lies in `[0, 1]`. -/
lemma SGBA_EFFR_interior_bounds (phi : Grid) (nx ny : ℕ) (i1 i2 i3 i4 S : Grid)
    (h : SGBA_EFFR phi nx ny i1 i2 i3 i4 = .ok S) (j i : ℕ) (hin : Interior nx ny j i) :
    0 ≤ S j i ∧ S j i ≤ 1 := by
  obtain ⟨q1, q2, q3, q4, h1, h2, h3, h4, hS⟩ := SGBA_EFFR_ok_elim phi nx ny i1 i2 i3 i4 S h
  obtain ⟨a1, b1⟩ := quadrantAreaCell_ok_bounds _ _ _ _ _
    (computeQuadrantArea_ok_interior _ _ _ _ nx ny i1 q1 h1 j i hin)
  obtain ⟨a2, b2⟩ := quadrantAreaCell_ok_bounds _ _ _ _ _
    (computeQuadrantArea_ok_interior _ _ _ _ nx ny i2 q2 h2 j i hin)
  obtain ⟨a3, b3⟩ := quadrantAreaCell_ok_bounds _ _ _ _ _
    (computeQuadrantArea_ok_interior _ _ _ _ nx ny i3 q3 h3 j i hin)
  obtain ⟨a4, b4⟩ := quadrantAreaCell_ok_bounds _ _ _ _ _
    (computeQuadrantArea_ok_interior _ _ _ _ nx ny i4 q4 h4 j i hin)
  subst hS
  constructor <;> simp only [] <;> linarith

/-- Helper: an interior cell of `SGBA_WA` lies in `[0, 1]` when `phi` does. -/
lemma SGBA_WA_interior_bounds (phi : Grid) (nx ny : ℕ) (init : Grid)
    (hphi : ∀ j' i' : ℕ, 0 ≤ phi j' i' ∧ phi j' i' ≤ 1)
    (j i : ℕ) (hin : Interior nx ny j i) :
    0 ≤ SGBA_WA phi nx ny init j i ∧ SGBA_WA phi nx ny init j i ≤ 1 := by
  rw [SGBA_WA_interior_eq phi nx ny init j i hin]
  obtain ⟨c0, c1⟩ := hphi j i
  obtain ⟨n0, n1⟩ := hphi (j-1) i
  obtain ⟨s0, s1⟩ := hphi (j+1) i
  obtain ⟨e0, e1⟩ := hphi j (i+1)
  obtain ⟨w0, w1⟩ := hphi j (i-1)
  obtain ⟨d10, d11⟩ := hphi (j-1) (i-1)
  obtain ⟨d20, d21⟩ := hphi (j-1) (i+1)
  obtain ⟨d30, d31⟩ := hphi (j+1) (i-1)
  obtain ⟨d40, d41⟩ := hphi (j+1) (i+1)
  constructor <;> linarith

lemma sgn_of_pos {x : ℚ} (h : 0 < x) : sgn x = 1 := by
  unfold sgn; rw [if_pos h]

lemma sgn_of_neg {x : ℚ} (h : x < 0) : sgn x = -1 := by
  unfold sgn; rw [if_neg (by linarith), if_pos h]

lemma sgn_of_zero {x : ℚ} (h : x = 0) : sgn x = 0 := by
  subst h; unfold sgn
  rw [if_neg (lt_irrefl 0), if_neg (lt_irrefl 0)]

lemma caseId_eval (P1 P2 P3 P4 : ℚ) (s1 s2 s3 s4 : ℤ)
    (h1 : sgn (P1 - 1/2) = s1) (h2 : sgn (P2 - 1/2) = s2)
    (h3 : sgn (P3 - 1/2) = s3) (h4 : sgn (P4 - 1/2) = s4) :
    caseId P1 P2 P3 P4 =
      (1 + Int.tdiv (s1 - s2) 2) + 3 * (1 + Int.tdiv (s2 - s3) 2)
        + 9 * (1 + Int.tdiv (s4 - s3) 2) + 27 * (1 + Int.tdiv (s1 - s4) 2) := by
  unfold caseId crossD
  rw [h1, h2, h3, h4]

lemma dict_none_of (C : ℤ)
    (h68 : C ≠ 68) (h12 : C ≠ 12) (h70 : C ≠ 70) (h10 : C ≠ 10) (h22 : C ≠ 22)
    (h42 : C ≠ 42) (h38 : C ≠ 38) (h50 : C ≠ 50) (h30 : C ≠ 30) (h28 : C ≠ 28)
    (h52 : C ≠ 52) (h24 : C ≠ 24) (h56 : C ≠ 56) :
    QUADRANT_CASE_DICT C = none := by
  unfold QUADRANT_CASE_DICT
  rw [if_neg h68, if_neg h12, if_neg h70, if_neg h10, if_neg h22, if_neg h42,
    if_neg h38, if_neg h50, if_neg h30, if_neg h28, if_neg h52, if_neg h24, if_neg h56]

lemma dictG_none_of (C : ℤ)
    (h68 : C ≠ 68) (h12 : C ≠ 12) (h70 : C ≠ 70) (h10 : C ≠ 10) (h22 : C ≠ 22)
    (h42 : C ≠ 42) (h38 : C ≠ 38) (h50 : C ≠ 50) (h30 : C ≠ 30) (h28 : C ≠ 28)
    (h52 : C ≠ 52) (h24 : C ≠ 24) (h56 : C ≠ 56) :
    QUADRANT_CASE_DICT_G C = none := by
  unfold QUADRANT_CASE_DICT_G
  rw [if_neg h68, if_neg h12, if_neg h70, if_neg h10, if_neg h22, if_neg h42,
    if_neg h38, if_neg h50, if_neg h30, if_neg h28, if_neg h52, if_neg h24, if_neg h56]

lemma foldl_quadrantStepOld (p1 p2 p3 p4 : Grid) (l : List (ℕ × ℕ)) :
    ∀ g : Grid,
      (∀ ji ∈ l, (l.foldl (quadrantStepOld p1 p2 p3 p4) g) ji.1 ji.2
          = quadrantAreaCellOld (p1 ji.1 ji.2) (p2 ji.1 ji.2) (p3 ji.1 ji.2) (p4 ji.1 ji.2))
      ∧ ∀ j i : ℕ, (j, i) ∉ l → (l.foldl (quadrantStepOld p1 p2 p3 p4) g) j i = g j i := by
  induction l with
  | nil =>
      intro g
      exact ⟨fun ji hji => absurd hji (List.not_mem_nil _), fun _ _ _ => rfl⟩
  | cons x xs ih =>
      intro g
      obtain ⟨ih1, ih2⟩ := ih (quadrantStepOld p1 p2 p3 p4 g x)
      constructor
      · intro ji hji
        rcases List.mem_cons.mp hji with rfl | hmem
        · by_cases hx : ji ∈ xs
          · rw [List.foldl_cons]
            exact ih1 ji hx
          · rw [List.foldl_cons, ih2 ji.1 ji.2 (by simpa using hx)]
            unfold quadrantStepOld upd
            rw [if_pos ⟨rfl, rfl⟩]
        · rw [List.foldl_cons]
          exact ih1 ji hmem
      · intro j i hni
        have hne : (j, i) ≠ x := fun hh => hni (hh ▸ List.mem_cons_self _ _)
        rw [List.foldl_cons, ih2 j i (fun hm => hni (List.mem_cons_of_mem _ hm))]
        unfold quadrantStepOld upd
        rw [if_neg]
        rintro ⟨h1', h2'⟩
        exact hne (by rw [h1', h2'])

/-- Under the saturation-or-valid condition the new cell body succeeds and
returns exactly the value of the older cell body. -/
lemma quadrantAreaCell_old_eq (P1 P2 P3 P4 : ℚ) (h : OkQuad P1 P2 P3 P4) :
    quadrantAreaCell P1 P2 P3 P4 = .ok (quadrantAreaCellOld P1 P2 P3 P4) := by
  unfold quadrantAreaCell quadrantAreaCellOld
  by_cases c1 : 1/2 < P1 ∧ 1/2 < P2 ∧ 1/2 < P3 ∧ 1/2 < P4
  · rw [if_pos c1, if_pos c1]
  rw [if_neg c1, if_neg c1]
  by_cases c2 : P1 < 1/2 ∧ P2 < 1/2 ∧ P3 < 1/2 ∧ P4 < 1/2
  · rw [if_pos c2, if_pos c2]
  rw [if_neg c2, if_neg c2]
  have hv : (QUADRANT_CASE_DICT (caseId P1 P2 P3 P4)).isSome = true := by
    rcases h with hs | hs | hv
    · exact absurd hs c1
    · exact absurd hs c2
    · exact hv
  obtain ⟨f, hf⟩ := Option.isSome_iff_exists.mp hv
  rw [hf]
  refine congrArg Except.ok ?_
  rcases dict_some_cases _ f hf P1 P2 P3 P4 with
    ⟨hC, hfv⟩ | ⟨hC, hfv⟩ | ⟨hC, hfv⟩ | ⟨hC, hfv⟩ | ⟨hC, hfv⟩ | ⟨hC, hfv⟩ | ⟨hC, hfv⟩ |
    ⟨hC, hfv⟩ | ⟨hC, hfv⟩ | ⟨hC, hfv⟩ | ⟨hC, hfv⟩ | ⟨hC, hfv⟩ | ⟨hC, hfv⟩ <;>
    rw [hfv, hC] <;> norm_num

lemma dictG_none_of_dict_none (C : ℤ) (h : QUADRANT_CASE_DICT C = none) :
    QUADRANT_CASE_DICT_G C = none := by
  apply dictG_none_of <;> intro hC <;> subst hC <;>
    (unfold QUADRANT_CASE_DICT at h; norm_num at h; exact Option.noConfusion h)

/-- Helper for C8: with the saturation tests already failed and the case
identifier mapped, the guarded entry's zero tests never fire, so the guarded
cell body equals the unguarded one on every quadrant. -/
lemma quadrantAreaCellG_eq_cell (P1 P2 P3 P4 : ℚ) :
    quadrantAreaCellG P1 P2 P3 P4 = quadrantAreaCell P1 P2 P3 P4 := by
  unfold quadrantAreaCellG quadrantAreaCell
  by_cases c1 : 1/2 < P1 ∧ 1/2 < P2 ∧ 1/2 < P3 ∧ 1/2 < P4
  · rw [if_pos c1, if_pos c1]
  rw [if_neg c1, if_neg c1]
  by_cases c2 : P1 < 1/2 ∧ P2 < 1/2 ∧ P3 < 1/2 ∧ P4 < 1/2
  · rw [if_pos c2, if_pos c2]
  rw [if_neg c2, if_neg c2]
  cases hd : QUADRANT_CASE_DICT (caseId P1 P2 P3 P4) with
  | none => rw [dictG_none_of_dict_none _ hd]
  | some f =>
      rcases dict_some_cases _ f hd P1 P2 P3 P4 with
        ⟨hC, hfv⟩ | ⟨hC, hfv⟩ | ⟨hC, hfv⟩ | ⟨hC, hfv⟩ | ⟨hC, hfv⟩ | ⟨hC, hfv⟩ | ⟨hC, hfv⟩ |
        ⟨hC, hfv⟩ | ⟨hC, hfv⟩ | ⟨hC, hfv⟩ | ⟨hC, hfv⟩ | ⟨hC, hfv⟩ | ⟨hC, hfv⟩
      · obtain ⟨f1, f2, f4⟩ := caseId_68 P1 P2 P3 P4 hC
        rw [hC]
        have hG : QUADRANT_CASE_DICT_G 68 = some fun P1 P2 _ P4 => surf68g P1 P2 P4 := by
          unfold QUADRANT_CASE_DICT_G; norm_num
        rw [hG]
        show surf68g P1 P2 P4 = Except.ok (f P1 P2 P3 P4)
        rw [hfv]
        unfold surf68g
        rw [if_neg (ne_of_gt (by nlinarith : (0:ℚ) < 2 * (P2 - P1) * (P4 - P1)))]
      · obtain ⟨f1, f2, f4⟩ := caseId_12 P1 P2 P3 P4 hC
        rw [hC]
        have hG : QUADRANT_CASE_DICT_G 12
            = some fun P1 P2 _ P4 => (surf68g P1 P2 P4).map fun x => 1 - x := by
          unfold QUADRANT_CASE_DICT_G; norm_num
        rw [hG]
        show (surf68g P1 P2 P4).map (fun x => 1 - x) = Except.ok (f P1 P2 P3 P4)
        rw [hfv]
        unfold surf68g
        rw [if_neg (ne_of_gt (by nlinarith : (0:ℚ) < 2 * (P2 - P1) * (P4 - P1)))]
        rfl
      · obtain ⟨f1, f2, f3, f4⟩ := caseId_70 P1 P2 P3 P4 hC
        rw [hC]
        have hG : QUADRANT_CASE_DICT_G 70 = some fun P1 P2 P3 P4 => surf70g P1 P2 P3 P4 := by
          unfold QUADRANT_CASE_DICT_G; norm_num
        rw [hG]
        show surf70g P1 P2 P3 P4 = Except.ok (f P1 P2 P3 P4)
        rw [hfv]
        unfold surf70g
        rw [if_neg (by rintro (hz | hz) <;> linarith)]
      · obtain ⟨f1, f2, f3, f4⟩ := caseId_10 P1 P2 P3 P4 hC
        rw [hC]
        have hG : QUADRANT_CASE_DICT_G 10
            = some fun P1 P2 P3 P4 => (surf70g P1 P2 P3 P4).map fun x => 1 - x := by
          unfold QUADRANT_CASE_DICT_G; norm_num
        rw [hG]
        show (surf70g P1 P2 P3 P4).map (fun x => 1 - x) = Except.ok (f P1 P2 P3 P4)
        rw [hfv]
        unfold surf70g
        rw [if_neg (by rintro (hz | hz) <;> linarith)]
        rfl
      · obtain ⟨f1, f3, f4⟩ := caseId_22 P1 P2 P3 P4 hC
        rw [hC]
        have hG : QUADRANT_CASE_DICT_G 22 = some fun P1 _ P3 P4 => surf22g P1 P3 P4 := by
          unfold QUADRANT_CASE_DICT_G; norm_num
        rw [hG]
        show surf22g P1 P3 P4 = Except.ok (f P1 P2 P3 P4)
        rw [hfv]
        unfold surf22g
        rw [if_neg (ne_of_gt (by nlinarith : (0:ℚ) < -2 * (P4 - P1) * (P3 - P4)))]
      · obtain ⟨f1, f2, f3⟩ := caseId_42 P1 P2 P3 P4 hC
        rw [hC]
        have hG : QUADRANT_CASE_DICT_G 42 = some fun P1 P2 P3 _ => surf22g P1 P3 P2 := by
          unfold QUADRANT_CASE_DICT_G; norm_num
        rw [hG]
        show surf22g P1 P3 P2 = Except.ok (f P1 P2 P3 P4)
        rw [hfv]
        unfold surf22g
        rw [if_neg (ne_of_gt (by nlinarith : (0:ℚ) < -2 * (P2 - P1) * (P3 - P2)))]
      · obtain ⟨f1, f2, f3⟩ := caseId_38 P1 P2 P3 P4 hC
        rw [hC]
        have hG : QUADRANT_CASE_DICT_G 38
            = some fun P1 P2 P3 _ => (surf22g P1 P3 P2).map fun x => 1 - x := by
          unfold QUADRANT_CASE_DICT_G; norm_num
        rw [hG]
        show (surf22g P1 P3 P2).map (fun x => 1 - x) = Except.ok (f P1 P2 P3 P4)
        rw [hfv]
        unfold surf22g
        rw [if_neg (ne_of_gt (by nlinarith : (0:ℚ) < -2 * (P2 - P1) * (P3 - P2)))]
        rfl
      · obtain ⟨f1, f2, f3, f4⟩ := caseId_50 P1 P2 P3 P4 hC
        rw [hC]
        have hG : QUADRANT_CASE_DICT_G 50 = some fun P1 P2 P3 P4 => surf70g P1 P4 P3 P2 := by
          unfold QUADRANT_CASE_DICT_G; norm_num
        rw [hG]
        show surf70g P1 P4 P3 P2 = Except.ok (f P1 P2 P3 P4)
        rw [hfv]
        unfold surf70g
        rw [if_neg (by rintro (hz | hz) <;> linarith)]
      · obtain ⟨f1, f2, f3, f4⟩ := caseId_30 P1 P2 P3 P4 hC
        rw [hC]
        have hG : QUADRANT_CASE_DICT_G 30
            = some fun P1 P2 P3 P4 => (surf70g P1 P4 P3 P2).map fun x => 1 - x := by
          unfold QUADRANT_CASE_DICT_G; norm_num
        rw [hG]
        show (surf70g P1 P4 P3 P2).map (fun x => 1 - x) = Except.ok (f P1 P2 P3 P4)
        rw [hfv]
        unfold surf70g
        rw [if_neg (by rintro (hz | hz) <;> linarith)]
        rfl
      · obtain ⟨f2, f3, f4⟩ := caseId_28 P1 P2 P3 P4 hC
        rw [hC]
        have hG : QUADRANT_CASE_DICT_G 28 = some fun _ P2 P3 P4 => surf68g P3 P2 P4 := by
          unfold QUADRANT_CASE_DICT_G; norm_num
        rw [hG]
        show surf68g P3 P2 P4 = Except.ok (f P1 P2 P3 P4)
        rw [hfv]
        unfold surf68g
        rw [if_neg (ne_of_gt (by nlinarith : (0:ℚ) < 2 * (P2 - P3) * (P4 - P3)))]
      · obtain ⟨f2, f3, f4⟩ := caseId_52 P1 P2 P3 P4 hC
        rw [hC]
        have hG : QUADRANT_CASE_DICT_G 52
            = some fun _ P2 P3 P4 => (surf68g P3 P2 P4).map fun x => 1 - x := by
          unfold QUADRANT_CASE_DICT_G; norm_num
        rw [hG]
        show (surf68g P3 P2 P4).map (fun x => 1 - x) = Except.ok (f P1 P2 P3 P4)
        rw [hfv]
        unfold surf68g
        rw [if_neg (ne_of_gt (by nlinarith : (0:ℚ) < 2 * (P2 - P3) * (P4 - P3)))]
        rfl
      · obtain ⟨f1, f2, f3, f4⟩ := caseId_24 P1 P2 P3 P4 hC
        rw [hC]
        have hG : QUADRANT_CASE_DICT_G 24 = some fun P1 P2 P3 P4 =>
            match surf22g P1 P3 P4, surf22g P1 P3 P2 with
            | Except.ok a, Except.ok b => Except.ok (a + b)
            | Except.error e, _ => Except.error e
            | _, Except.error e => Except.error e := by
          unfold QUADRANT_CASE_DICT_G; norm_num
        rw [hG]
        show (match surf22g P1 P3 P4, surf22g P1 P3 P2 with
            | Except.ok a, Except.ok b => Except.ok (a + b)
            | Except.error e, _ => Except.error e
            | _, Except.error e => Except.error e) = Except.ok (f P1 P2 P3 P4)
        rw [hfv]
        unfold surf22g
        rw [if_neg (ne_of_gt (by nlinarith : (0:ℚ) < -2 * (P4 - P1) * (P3 - P4))),
          if_neg (ne_of_gt (by nlinarith : (0:ℚ) < -2 * (P2 - P1) * (P3 - P2)))]
      · obtain ⟨f1, f2, f3, f4⟩ := caseId_56 P1 P2 P3 P4 hC
        rw [hC]
        have hG : QUADRANT_CASE_DICT_G 56 = some fun P1 P2 P3 P4 =>
            match surf68g P1 P2 P4, surf68g P3 P2 P4 with
            | Except.ok a, Except.ok b => Except.ok (a + b)
            | Except.error e, _ => Except.error e
            | _, Except.error e => Except.error e := by
          unfold QUADRANT_CASE_DICT_G; norm_num
        rw [hG]
        show (match surf68g P1 P2 P4, surf68g P3 P2 P4 with
            | Except.ok a, Except.ok b => Except.ok (a + b)
            | Except.error e, _ => Except.error e
            | _, Except.error e => Except.error e) = Except.ok (f P1 P2 P3 P4)
        rw [hfv]
        unfold surf68g
        rw [if_neg (ne_of_gt (by nlinarith : (0:ℚ) < 2 * (P2 - P1) * (P4 - P1))),
          if_neg (ne_of_gt (by nlinarith : (0:ℚ) < 2 * (P2 - P3) * (P4 - P3)))]

lemma foldl_waStep_exists_ok (phi : Grid) (pny pnx : ℕ) (l : List (ℕ × ℕ)) :
    ∀ init : Grid,
      (∀ ji ∈ l, ∃ v, waCellChecked phi pny pnx ji.1 ji.2 = .ok v) →
      ∃ A, l.foldl (waStepChecked phi pny pnx) (.ok init) = .ok A := by
  induction l with
  | nil => exact fun init _ => ⟨init, rfl⟩
  | cons x xs ih =>
      intro init hall
      obtain ⟨v, hv⟩ := hall x (List.mem_cons_self _ _)
      rw [List.foldl_cons]
      have hstep : waStepChecked phi pny pnx (.ok init) x = .ok (upd init x.1 x.2 v) := by
        unfold waStepChecked; rw [hv]
      rw [hstep]
      exact ih _ fun ji hji => hall ji (List.mem_cons_of_mem _ hji)

lemma foldl_interpStep_ok (pny pnx : ℕ) (l : List (ℕ × ℕ))
    (h : ∀ ji ∈ l, interpCellChecked pny pnx ji.1 ji.2 = .ok ()) :
    l.foldl (interpStep pny pnx) (Except.ok ()) = .ok () := by
  induction l with
  | nil => rfl
  | cons x xs ih =>
      rw [List.foldl_cons]
      have hstep : interpStep pny pnx (.ok ()) x = .ok () := by
        unfold interpStep; rw [h x (List.mem_cons_self _ _)]
      rw [hstep]
      exact ih fun ji hji => h ji (List.mem_cons_of_mem _ hji)

lemma SGBA_EFFR_no_idxErr (phi : Grid) (nx ny : ℕ) (i1 i2 i3 i4 : Grid) :
    SGBA_EFFR phi nx ny i1 i2 i3 i4 ≠ .error .idxErr := by
  unfold SGBA_EFFR
  cases h1 : computeQuadrantArea (phiSouthWest phi) (phiSouth phi) phi (phiWest phi) nx ny i1 with
  | error e =>
      intro hh
      obtain rfl := Except.error.inj hh
      obtain ⟨C, hC⟩ := foldl_quadrantStep_error_shape _ _ _ _ _ _ _ h1
      exact Err.noConfusion hC
  | ok q1 =>
  cases h2 : computeQuadrantArea (phiSouth phi) (phiSouthEast phi) (phiEast phi) phi nx ny i2 with
  | error e =>
      intro hh
      obtain rfl := Except.error.inj hh
      obtain ⟨C, hC⟩ := foldl_quadrantStep_error_shape _ _ _ _ _ _ _ h2
      exact Err.noConfusion hC
  | ok q2 =>
  cases h3 : computeQuadrantArea phi (phiEast phi) (phiNorthEast phi) (phiNorth phi) nx ny i3 with
  | error e =>
      intro hh
      obtain rfl := Except.error.inj hh
      obtain ⟨C, hC⟩ := foldl_quadrantStep_error_shape _ _ _ _ _ _ _ h3
      exact Err.noConfusion hC
  | ok q3 =>
  cases h4 : computeQuadrantArea (phiWest phi) phi (phiNorth phi) (phiNorthWest phi) nx ny i4 with
  | error e =>
      intro hh
      obtain rfl := Except.error.inj hh
      obtain ⟨C, hC⟩ := foldl_quadrantStep_error_shape _ _ _ _ _ _ _ h4
      exact Err.noConfusion hC
  | ok q4 => exact fun hh => Except.noConfusion hh

lemma computeQuadrantArea_single (p1 p2 p3 p4 : Grid) (init : Grid) (v : ℚ)
    (h : quadrantAreaCell (p1 1 1) (p2 1 1) (p3 1 1) (p4 1 1) = .ok v) :
    computeQuadrantArea p1 p2 p3 p4 3 3 init = .ok (upd init 1 1 v) := by
  unfold computeQuadrantArea
  rw [show interiorCells 3 3 = [(1, 1)] from rfl, List.foldl_cons, List.foldl_nil]
  unfold quadrantStep
  rw [h]

lemma computeQuadrantArea_single_err (p1 p2 p3 p4 : Grid) (init : Grid) (e : Err)
    (h : quadrantAreaCell (p1 1 1) (p2 1 1) (p3 1 1) (p4 1 1) = .error e) :
    computeQuadrantArea p1 p2 p3 p4 3 3 init = .error e := by
  unfold computeQuadrantArea
  rw [show interiorCells 3 3 = [(1, 1)] from rfl, List.foldl_cons, List.foldl_nil]
  unfold quadrantStep
  rw [h]

lemma computeQuadrantArea_pair_ok (p1 p2 p3 p4 : Grid) (init : Grid) (v1 v2 : ℚ)
    (h1 : quadrantAreaCell (p1 1 1) (p2 1 1) (p3 1 1) (p4 1 1) = .ok v1)
    (h2 : quadrantAreaCell (p1 1 2) (p2 1 2) (p3 1 2) (p4 1 2) = .ok v2) :
    computeQuadrantArea p1 p2 p3 p4 4 3 init = .ok (upd (upd init 1 1 v1) 1 2 v2) := by
  unfold computeQuadrantArea
  rw [show interiorCells 4 3 = [(1, 1), (1, 2)] from rfl, List.foldl_cons]
  have hstep1 : quadrantStep p1 p2 p3 p4 (.ok init) (1, 1) = .ok (upd init 1 1 v1) := by
    unfold quadrantStep; rw [h1]
  rw [hstep1, List.foldl_cons, List.foldl_nil]
  unfold quadrantStep
  rw [h2]

lemma computeQuadrantArea_pair_err2 (p1 p2 p3 p4 : Grid) (init : Grid) (v1 : ℚ) (e : Err)
    (h1 : quadrantAreaCell (p1 1 1) (p2 1 1) (p3 1 1) (p4 1 1) = .ok v1)
    (h2 : quadrantAreaCell (p1 1 2) (p2 1 2) (p3 1 2) (p4 1 2) = .error e) :
    computeQuadrantArea p1 p2 p3 p4 4 3 init = .error e := by
  unfold computeQuadrantArea
  rw [show interiorCells 4 3 = [(1, 1), (1, 2)] from rfl, List.foldl_cons]
  have hstep1 : quadrantStep p1 p2 p3 p4 (.ok init) (1, 1) = .ok (upd init 1 1 v1) := by
    unfold quadrantStep; rw [h1]
  rw [hstep1, List.foldl_cons, List.foldl_nil]
  unfold quadrantStep
  rw [h2]

lemma cell_all_ones : quadrantAreaCell 1 1 1 1 = .ok 1 := by
  unfold quadrantAreaCell
  rw [if_pos (by norm_num)]

lemma cell_all_half : quadrantAreaCell (1/2) (1/2) (1/2) (1/2) = .error (.keyErr 40) := by
  have s0 : sgn ((1:ℚ)/2 - 1/2) = 0 := sgn_of_zero (by norm_num)
  have hC : caseId (1/2) (1/2) (1/2) (1/2) = 40 := by
    rw [caseId_eval _ _ _ _ 0 0 0 0 s0 s0 s0 s0]; decide
  unfold quadrantAreaCell
  rw [if_neg (by norm_num), if_neg (by norm_num), hC,
    dict_none_of 40 (by decide) (by decide) (by decide) (by decide) (by decide) (by decide)
      (by decide) (by decide) (by decide) (by decide) (by decide) (by decide) (by decide)]

lemma cell_step_degenerate : quadrantAreaCell 1 (1/2) (1/2) 1 = .error (.keyErr 40) := by
  have s1 : sgn ((1:ℚ) - 1/2) = 1 := sgn_of_pos (by norm_num)
  have s0 : sgn ((1:ℚ)/2 - 1/2) = 0 := sgn_of_zero (by norm_num)
  have hC : caseId 1 (1/2) (1/2) 1 = 40 := by
    rw [caseId_eval _ _ _ _ 1 0 0 1 s1 s0 s0 s1]; decide
  unfold quadrantAreaCell
  rw [if_neg (by norm_num), if_neg (by norm_num), hC,
    dict_none_of 40 (by decide) (by decide) (by decide) (by decide) (by decide) (by decide)
      (by decide) (by decide) (by decide) (by decide) (by decide) (by decide) (by decide)]

lemma cell_tri_q1 : quadrantAreaCell (1/4) (2/5) (3/5) (2/5) = .ok (1/8) := by
  have sa : sgn ((1:ℚ)/4 - 1/2) = -1 := sgn_of_neg (by norm_num)
  have sb : sgn ((2:ℚ)/5 - 1/2) = -1 := sgn_of_neg (by norm_num)
  have sc : sgn ((3:ℚ)/5 - 1/2) = 1 := sgn_of_pos (by norm_num)
  have hC : caseId (1/4) (2/5) (3/5) (2/5) = 28 := by
    rw [caseId_eval _ _ _ _ (-1) (-1) 1 (-1) sa sb sc sb]; decide
  unfold quadrantAreaCell
  rw [if_neg (by norm_num), if_neg (by norm_num), hC,
    show QUADRANT_CASE_DICT 28 = some fun _ P2 P3 P4 => surf68 P3 P2 P4 from by
      unfold QUADRANT_CASE_DICT; norm_num]
  show Except.ok (surf68 (3/5) (2/5) (2/5)) = Except.ok (1/8)
  unfold surf68
  norm_num

lemma cell_tri_q2 : quadrantAreaCell (2/5) (1/4) (2/5) (3/5) = .ok (1/8) := by
  have sa : sgn ((2:ℚ)/5 - 1/2) = -1 := sgn_of_neg (by norm_num)
  have sb : sgn ((1:ℚ)/4 - 1/2) = -1 := sgn_of_neg (by norm_num)
  have sc : sgn ((3:ℚ)/5 - 1/2) = 1 := sgn_of_pos (by norm_num)
  have hC : caseId (2/5) (1/4) (2/5) (3/5) = 22 := by
    rw [caseId_eval _ _ _ _ (-1) (-1) (-1) 1 sa sb sa sc]; decide
  unfold quadrantAreaCell
  rw [if_neg (by norm_num), if_neg (by norm_num), hC,
    show QUADRANT_CASE_DICT 22 = some fun P1 _ P3 P4 => surf22 P1 P3 P4 from by
      unfold QUADRANT_CASE_DICT; norm_num]
  show Except.ok (surf22 (2/5) (2/5) (3/5)) = Except.ok (1/8)
  unfold surf22
  norm_num

lemma cell_tri_q3 : quadrantAreaCell (3/5) (2/5) (1/4) (2/5) = .ok (1/8) := by
  have sa : sgn ((3:ℚ)/5 - 1/2) = 1 := sgn_of_pos (by norm_num)
  have sb : sgn ((2:ℚ)/5 - 1/2) = -1 := sgn_of_neg (by norm_num)
  have sc : sgn ((1:ℚ)/4 - 1/2) = -1 := sgn_of_neg (by norm_num)
  have hC : caseId (3/5) (2/5) (1/4) (2/5) = 68 := by
    rw [caseId_eval _ _ _ _ 1 (-1) (-1) (-1) sa sb sc sb]; decide
  unfold quadrantAreaCell
  rw [if_neg (by norm_num), if_neg (by norm_num), hC,
    show QUADRANT_CASE_DICT 68 = some fun P1 P2 _ P4 => surf68 P1 P2 P4 from by
      unfold QUADRANT_CASE_DICT; norm_num]
  show Except.ok (surf68 (3/5) (2/5) (2/5)) = Except.ok (1/8)
  unfold surf68
  norm_num

lemma cell_tri_q4 : quadrantAreaCell (2/5) (3/5) (2/5) (1/4) = .ok (1/8) := by
  have sa : sgn ((2:ℚ)/5 - 1/2) = -1 := sgn_of_neg (by norm_num)
  have sb : sgn ((3:ℚ)/5 - 1/2) = 1 := sgn_of_pos (by norm_num)
  have sc : sgn ((1:ℚ)/4 - 1/2) = -1 := sgn_of_neg (by norm_num)
  have hC : caseId (2/5) (3/5) (2/5) (1/4) = 42 := by
    rw [caseId_eval _ _ _ _ (-1) 1 (-1) (-1) sa sb sa sc]; decide
  unfold quadrantAreaCell
  rw [if_neg (by norm_num), if_neg (by norm_num), hC,
    show QUADRANT_CASE_DICT 42 = some fun P1 P2 P3 _ => surf22 P1 P3 P2 from by
      unfold QUADRANT_CASE_DICT; norm_num]
  show Except.ok (surf22 (2/5) (2/5) (3/5)) = Except.ok (1/8)
  unfold surf22
  norm_num

lemma tri_interp_vals :
    phiSouthWest gridTriangles 1 1 = 1/4 ∧ phiSouth gridTriangles 1 1 = 2/5
    ∧ phiSouthEast gridTriangles 1 1 = 1/4 ∧ phiEast gridTriangles 1 1 = 2/5
    ∧ phiNorthEast gridTriangles 1 1 = 1/4 ∧ phiNorth gridTriangles 1 1 = 2/5
    ∧ phiNorthWest gridTriangles 1 1 = 1/4 ∧ phiWest gridTriangles 1 1 = 2/5
    ∧ gridTriangles 1 1 = 3/5 := by
  refine ⟨?_, ?_, ?_, ?_, ?_, ?_, ?_, ?_, ?_⟩ <;>
    norm_num [phiSouthWest, phiSouth, phiSouthEast, phiEast, phiNorthEast, phiNorth,
      phiNorthWest, phiWest, gridTriangles]

lemma half_interp_vals :
    phiSouthWest gridHalf 1 1 = 1/2 ∧ phiSouth gridHalf 1 1 = 1/2
    ∧ phiWest gridHalf 1 1 = 1/2 ∧ gridHalf 1 1 = 1/2 := by
  refine ⟨?_, ?_, ?_, ?_⟩ <;> norm_num [phiSouthWest, phiSouth, phiWest, gridHalf]

lemma step_interp_vals :
    phiSouthWest gridStep 1 1 = 1 ∧ phiSouth gridStep 1 1 = 1
    ∧ phiSouthEast gridStep 1 1 = 1 ∧ phiEast gridStep 1 1 = 1
    ∧ phiWest gridStep 1 1 = 1 ∧ gridStep 1 1 = 1
    ∧ phiSouthWest gridStep 1 2 = 1 ∧ phiSouth gridStep 1 2 = 1
    ∧ phiSouthEast gridStep 1 2 = 1/2 ∧ phiEast gridStep 1 2 = 1/2
    ∧ phiWest gridStep 1 2 = 1 ∧ gridStep 1 2 = 1 := by
  refine ⟨?_, ?_, ?_, ?_, ?_, ?_, ?_, ?_, ?_, ?_, ?_, ?_⟩ <;>
    norm_num [phiSouthWest, phiSouth, phiSouthEast, phiEast, phiWest, gridStep]

lemma SGBA_EFFR_tri (i1 i2 i3 i4 : Grid) :
    ∃ S : Grid, SGBA_EFFR gridTriangles 3 3 i1 i2 i3 i4 = .ok S ∧ S 1 1 = 1/8 := by
  obtain ⟨hsw, hs, hse, he, hne2, hn, hnw, hw, hc⟩ := tri_interp_vals
  have h1 : quadrantAreaCell (phiSouthWest gridTriangles 1 1) (phiSouth gridTriangles 1 1)
      (gridTriangles 1 1) (phiWest gridTriangles 1 1) = .ok (1/8) := by
    rw [hsw, hs, hc, hw]; exact cell_tri_q1
  have h2 : quadrantAreaCell (phiSouth gridTriangles 1 1) (phiSouthEast gridTriangles 1 1)
      (phiEast gridTriangles 1 1) (gridTriangles 1 1) = .ok (1/8) := by
    rw [hs, hse, he, hc]; exact cell_tri_q2
  have h3 : quadrantAreaCell (gridTriangles 1 1) (phiEast gridTriangles 1 1)
      (phiNorthEast gridTriangles 1 1) (phiNorth gridTriangles 1 1) = .ok (1/8) := by
    rw [hc, he, hne2, hn]; exact cell_tri_q3
  have h4 : quadrantAreaCell (phiWest gridTriangles 1 1) (gridTriangles 1 1)
      (phiNorth gridTriangles 1 1) (phiNorthWest gridTriangles 1 1) = .ok (1/8) := by
    rw [hw, hc, hn, hnw]; exact cell_tri_q4
  unfold SGBA_EFFR
  rw [computeQuadrantArea_single _ _ _ _ i1 _ h1,
    computeQuadrantArea_single _ _ _ _ i2 _ h2,
    computeQuadrantArea_single _ _ _ _ i3 _ h3,
    computeQuadrantArea_single _ _ _ _ i4 _ h4]
  refine ⟨_, rfl, ?_⟩
  show 1/4 * (upd i1 1 1 (1/8) 1 1 + upd i2 1 1 (1/8) 1 1
    + upd i3 1 1 (1/8) 1 1 + upd i4 1 1 (1/8) 1 1) = 1/8
  unfold upd
  norm_num

lemma SGBA_EFFR_half :
    SGBA_EFFR gridHalf 3 3 gridZero gridZero gridZero gridZero = .error (.keyErr 40) := by
  obtain ⟨hsw, hs, hw, hc⟩ := half_interp_vals
  have h1 : quadrantAreaCell (phiSouthWest gridHalf 1 1) (phiSouth gridHalf 1 1)
      (gridHalf 1 1) (phiWest gridHalf 1 1) = .error (.keyErr 40) := by
    rw [hsw, hs, hc, hw]; exact cell_all_half
  unfold SGBA_EFFR
  rw [computeQuadrantArea_single_err _ _ _ _ gridZero _ h1]

lemma SGBA_EFFR_step :
    SGBA_EFFR gridStep 4 3 gridZero gridZero gridZero gridZero = .error (.keyErr 40) := by
  obtain ⟨a1, a2, a3, a4, a5, a6, b1, b2, b3, b4, b5, b6⟩ := step_interp_vals
  have h11 : quadrantAreaCell (phiSouthWest gridStep 1 1) (phiSouth gridStep 1 1)
      (gridStep 1 1) (phiWest gridStep 1 1) = .ok 1 := by
    rw [a1, a2, a6, a5]; exact cell_all_ones
  have h12 : quadrantAreaCell (phiSouthWest gridStep 1 2) (phiSouth gridStep 1 2)
      (gridStep 1 2) (phiWest gridStep 1 2) = .ok 1 := by
    rw [b1, b2, b6, b5]; exact cell_all_ones
  have h21 : quadrantAreaCell (phiSouth gridStep 1 1) (phiSouthEast gridStep 1 1)
      (phiEast gridStep 1 1) (gridStep 1 1) = .ok 1 := by
    rw [a2, a3, a4, a6]; exact cell_all_ones
  have h22 : quadrantAreaCell (phiSouth gridStep 1 2) (phiSouthEast gridStep 1 2)
      (phiEast gridStep 1 2) (gridStep 1 2) = .error (.keyErr 40) := by
    rw [b2, b3, b4, b6]; exact cell_step_degenerate
  unfold SGBA_EFFR
  rw [computeQuadrantArea_pair_ok _ _ _ _ gridZero 1 1 h11 h12,
    computeQuadrantArea_pair_err2 _ _ _ _ gridZero 1 _ h21 h22]

lemma crossD_mem3 (a b : ℚ) : crossD a b = -1 ∨ crossD a b = 0 ∨ crossD a b = 1 := by
  obtain ⟨h1, h2⟩ := crossD_mem a b
  omega

lemma caseId_range (P1 P2 P3 P4 : ℚ) : 0 ≤ caseId P1 P2 P3 P4 ∧ caseId P1 P2 P3 P4 ≤ 80 := by
  obtain ⟨a1, b1⟩ := crossD_mem P1 P2
  obtain ⟨a2, b2⟩ := crossD_mem P2 P3
  obtain ⟨a3, b3⟩ := crossD_mem P4 P3
  obtain ⟨a4, b4⟩ := crossD_mem P1 P4
  unfold caseId
  omega

lemma crossD_exact (a b : ℚ) (ha : a ≠ 1/2) (hb : b ≠ 1/2) :
    (crossD a b : ℚ) = specCrossD a b := by
  have t0 : Int.tdiv 0 2 = 0 := by decide
  have t2 : Int.tdiv 2 2 = 1 := by decide
  have tm2 : Int.tdiv (-2) 2 = -1 := by decide
  have ha' : sgn (a - 1/2) = 1 ∨ sgn (a - 1/2) = -1 := by
    rcases lt_trichotomy a (1/2) with h | h | h
    · exact Or.inr (sgn_of_neg (by linarith))
    · exact absurd h ha
    · exact Or.inl (sgn_of_pos (by linarith))
  have hb' : sgn (b - 1/2) = 1 ∨ sgn (b - 1/2) = -1 := by
    rcases lt_trichotomy b (1/2) with h | h | h
    · exact Or.inr (sgn_of_neg (by linarith))
    · exact absurd h hb
    · exact Or.inl (sgn_of_pos (by linarith))
  unfold crossD specCrossD
  rcases ha' with h1 | h1 <;> rcases hb' with h2 | h2 <;>
    rw [h1, h2] <;> norm_num [t0, t2, tm2]

lemma SGBA_EFFR_tri_eq :
    SGBA_EFFR gridTriangles 3 3 gridZero gridZero gridZero gridZero = .ok STriangles := by
  obtain ⟨hsw, hs, hse, he, hne2, hn, hnw, hw, hc⟩ := tri_interp_vals
  have h1 : quadrantAreaCell (phiSouthWest gridTriangles 1 1) (phiSouth gridTriangles 1 1)
      (gridTriangles 1 1) (phiWest gridTriangles 1 1) = .ok (1/8) := by
    rw [hsw, hs, hc, hw]; exact cell_tri_q1
  have h2 : quadrantAreaCell (phiSouth gridTriangles 1 1) (phiSouthEast gridTriangles 1 1)
      (phiEast gridTriangles 1 1) (gridTriangles 1 1) = .ok (1/8) := by
    rw [hs, hse, he, hc]; exact cell_tri_q2
  have h3 : quadrantAreaCell (gridTriangles 1 1) (phiEast gridTriangles 1 1)
      (phiNorthEast gridTriangles 1 1) (phiNorth gridTriangles 1 1) = .ok (1/8) := by
    rw [hc, he, hne2, hn]; exact cell_tri_q3
  have h4 : quadrantAreaCell (phiWest gridTriangles 1 1) (gridTriangles 1 1)
      (phiNorth gridTriangles 1 1) (phiNorthWest gridTriangles 1 1) = .ok (1/8) := by
    rw [hw, hc, hn, hnw]; exact cell_tri_q4
  unfold SGBA_EFFR
  rw [computeQuadrantArea_single _ _ _ _ gridZero _ h1,
    computeQuadrantArea_single _ _ _ _ gridZero _ h2,
    computeQuadrantArea_single _ _ _ _ gridZero _ h3,
    computeQuadrantArea_single _ _ _ _ gridZero _ h4]
  rfl

lemma STriangles_center : STriangles 1 1 = 1/8 := by
  unfold STriangles upd
  norm_num

/-- C1 (amended): at every interior cell the output of `SGBA_WA` lies in
`[0, 1]` provided every value of `phi` lies in `[0, 1]`; and whenever
`SGBA_EFFR` completes without raising, every interior cell of its output
lies in `[0, 1]`, for arbitrary input.  The original claim, quantified over
arbitrary level-set grids, fails for `SGBA_WA` (see the counterexample). -/
theorem SGBA_interior_bounds :
    (∀ (phi : Grid) (nx ny : ℕ) (init : Grid) (j i : ℕ),
      (∀ j' i' : ℕ, 0 ≤ phi j' i' ∧ phi j' i' ≤ 1) → Interior nx ny j i →
      0 ≤ SGBA_WA phi nx ny init j i ∧ SGBA_WA phi nx ny init j i ≤ 1)
    ∧ (∀ (phi : Grid) (nx ny : ℕ) (i1 i2 i3 i4 S : Grid) (j i : ℕ),
      SGBA_EFFR phi nx ny i1 i2 i3 i4 = .ok S → Interior nx ny j i →
      0 ≤ S j i ∧ S j i ≤ 1) :=
  ⟨fun phi nx ny init j i hphi hin => SGBA_WA_interior_bounds phi nx ny init hphi j i hin,
   fun phi nx ny i1 i2 i3 i4 S j i h hin =>
     SGBA_EFFR_interior_bounds phi nx ny i1 i2 i3 i4 S h j i hin⟩

/-- C1 witness: both parts at concrete inputs. -/
theorem SGBA_interior_bounds_witness :
    (0 ≤ SGBA_WA gridZero 3 3 gridZero 1 1 ∧ SGBA_WA gridZero 3 3 gridZero 1 1 ≤ 1)
    ∧ (0 ≤ STriangles 1 1 ∧ STriangles 1 1 ≤ 1) :=
  ⟨SGBA_interior_bounds.1 gridZero 3 3 gridZero 1 1
      (fun _ _ => by norm_num [gridZero]) (by decide),
   SGBA_interior_bounds.2 gridTriangles 3 3 gridZero gridZero gridZero gridZero STriangles 1 1
      SGBA_EFFR_tri_eq (by decide)⟩

/-- C1 counterexample: on the constant grid of value 2 (a legal input, since
the claim quantifies over every level-set grid), the WA output at the
interior cell (1,1) of a 3x3 grid is 2, violating the claimed bound S <= 1. -/
theorem SGBA_WA_bounds_counterexample :
    SGBA_WA (fun _ _ => 2) 3 3 gridZero 1 1 = 2
    ∧ ¬(SGBA_WA (fun _ _ => 2) 3 3 gridZero 1 1 ≤ 1) := by
  have h : SGBA_WA (fun _ _ => 2) 3 3 gridZero 1 1 = 2 := by
    rw [SGBA_WA_interior_eq _ 3 3 gridZero 1 1 (by decide)]
    norm_num
  exact ⟨h, by rw [h]; norm_num⟩

/-- C2: at every interior cell (1 <= j <= ny-2, 1 <= i <= nx-2), `SGBA_WA`
stores 9/16 times the center value plus 3/32 times the sum of the four
direct neighbors plus 1/64 times the sum of the four diagonal neighbors. -/
theorem SGBA_WA_stencil (phi : Grid) (nx ny : ℕ) (init : Grid) (j i : ℕ)
    (h : Interior nx ny j i) :
    SGBA_WA phi nx ny init j i =
      9/16 * phi j i
        + 3/32 * (phi (j-1) i + phi (j+1) i + phi j (i+1) + phi j (i-1))
        + 1/64 * (phi (j-1) (i-1) + phi (j-1) (i+1) + phi (j+1) (i-1) + phi (j+1) (i+1)) :=
  SGBA_WA_interior_eq phi nx ny init j i h

/-- C2 witness: the stencil identity at the center of the triangles grid. -/
theorem SGBA_WA_stencil_witness :
    SGBA_WA gridTriangles 3 3 gridZero 1 1 =
      9/16 * gridTriangles 1 1
        + 3/32 * (gridTriangles 0 1 + gridTriangles 2 1 + gridTriangles 1 2 + gridTriangles 1 0)
        + 1/64 * (gridTriangles 0 0 + gridTriangles 0 2
          + gridTriangles 2 0 + gridTriangles 2 2) :=
  SGBA_WA_stencil gridTriangles 3 3 gridZero 1 1 (by decide)

/-- C3: a spatially constant field of value v is a fixed point of `SGBA_WA`
at every interior cell, because the nine stencil coefficients sum to 1. -/
theorem SGBA_WA_constant_fixed_point (v : ℚ) (nx ny : ℕ) (init : Grid) (j i : ℕ)
    (h : Interior nx ny j i) :
    SGBA_WA (fun _ _ => v) nx ny init j i = v := by
  rw [SGBA_WA_interior_eq _ nx ny init j i h]
  ring

/-- C3 witness: the constant field 7/10 maps to itself at the center. -/
theorem SGBA_WA_constant_fixed_point_witness :
    SGBA_WA (fun _ _ => 7/10) 3 3 gridZero 1 1 = 7/10 :=
  SGBA_WA_constant_fixed_point (7/10) 3 3 gridZero 1 1 (by decide)

/-- C4: a quadrant whose four values are all strictly above 0.5 gets area
exactly 1, and one with all four strictly below 0.5 gets area exactly 0, in
both cases by the short-circuit before any case classification. -/
theorem EFFR_saturation :
    (∀ P1 P2 P3 P4 : ℚ, 1/2 < P1 → 1/2 < P2 → 1/2 < P3 → 1/2 < P4 →
      quadrantAreaCell P1 P2 P3 P4 = .ok 1)
    ∧ ∀ P1 P2 P3 P4 : ℚ, P1 < 1/2 → P2 < 1/2 → P3 < 1/2 → P4 < 1/2 →
      quadrantAreaCell P1 P2 P3 P4 = .ok 0 := by
  constructor
  · intro P1 P2 P3 P4 h1 h2 h3 h4
    unfold quadrantAreaCell
    rw [if_pos ⟨h1, h2, h3, h4⟩]
  · intro P1 P2 P3 P4 h1 h2 h3 h4
    unfold quadrantAreaCell
    rw [if_neg (by rintro ⟨hh, -, -, -⟩; linarith), if_pos ⟨h1, h2, h3, h4⟩]

/-- C4 witness: the two saturation behaviors at concrete quadrants. -/
theorem EFFR_saturation_witness :
    quadrantAreaCell (3/5) (3/5) (3/5) (3/5) = .ok 1
    ∧ quadrantAreaCell (2/5) (2/5) (2/5) (2/5) = .ok 0 :=
  ⟨EFFR_saturation.1 (3/5) (3/5) (3/5) (3/5)
      (by norm_num) (by norm_num) (by norm_num) (by norm_num),
   EFFR_saturation.2 (2/5) (2/5) (2/5) (2/5)
      (by norm_num) (by norm_num) (by norm_num) (by norm_num)⟩

/-- C5 (amended): the classifier computes each crossing value as the
truncation toward zero of sign(Pa-0.5)/2 - sign(Pb-0.5)/2; each lies in
{-1,0,1} and the identifier C lies in [0,80]; the untruncated formula of the
claim agrees with the code exactly when no corner equals 0.5 (on a corner
equal to 0.5 the claim's formula is a half-integer: see counterexample). -/
theorem classifier_truncated_encoding (P1 P2 P3 P4 : ℚ) :
    (crossD P1 P2 = -1 ∨ crossD P1 P2 = 0 ∨ crossD P1 P2 = 1)
    ∧ (crossD P2 P3 = -1 ∨ crossD P2 P3 = 0 ∨ crossD P2 P3 = 1)
    ∧ (crossD P4 P3 = -1 ∨ crossD P4 P3 = 0 ∨ crossD P4 P3 = 1)
    ∧ (crossD P1 P4 = -1 ∨ crossD P1 P4 = 0 ∨ crossD P1 P4 = 1)
    ∧ (0 ≤ caseId P1 P2 P3 P4 ∧ caseId P1 P2 P3 P4 ≤ 80)
    ∧ (P1 ≠ 1/2 → P2 ≠ 1/2 → P3 ≠ 1/2 → P4 ≠ 1/2 →
        (crossD P1 P2 : ℚ) = specCrossD P1 P2 ∧ (crossD P2 P3 : ℚ) = specCrossD P2 P3
        ∧ (crossD P4 P3 : ℚ) = specCrossD P4 P3 ∧ (crossD P1 P4 : ℚ) = specCrossD P1 P4) := by
  refine ⟨crossD_mem3 P1 P2, crossD_mem3 P2 P3, crossD_mem3 P4 P3, crossD_mem3 P1 P4,
    caseId_range P1 P2 P3 P4, ?_⟩
  intro h1 h2 h3 h4
  exact ⟨crossD_exact P1 P2 h1 h2, crossD_exact P2 P3 h2 h3,
    crossD_exact P4 P3 h4 h3, crossD_exact P1 P4 h1 h4⟩

/-- C5 witness: range and exactness at a concrete non-degenerate quadrant. -/
theorem classifier_truncated_encoding_witness :
    (0 ≤ caseId (3/5) (2/5) (3/5) (2/5) ∧ caseId (3/5) (2/5) (3/5) (2/5) ≤ 80)
    ∧ (crossD (3/5) (2/5) : ℚ) = specCrossD (3/5) (2/5) := by
  obtain ⟨-, -, -, -, hr, himp⟩ := classifier_truncated_encoding (3/5) (2/5) (3/5) (2/5)
  exact ⟨hr, (himp (by norm_num) (by norm_num) (by norm_num) (by norm_num)).1⟩

/-- C5 counterexample: the quadrant (0.5, 0.6, 0.6, 0.6) is neither fully
above nor fully below 0.5, yet the claim's untruncated crossing value
sign(P1-0.5)/2 - sign(P2-0.5)/2 equals -1/2, which is not in {-1,0,1} and
differs from the code's truncated value. -/
theorem classifier_spec_formula_counterexample :
    ¬(1/2 < (1/2 : ℚ) ∧ 1/2 < (3/5 : ℚ) ∧ 1/2 < (3/5 : ℚ) ∧ 1/2 < (3/5 : ℚ))
    ∧ ¬((1/2 : ℚ) < 1/2 ∧ (3/5 : ℚ) < 1/2 ∧ (3/5 : ℚ) < 1/2 ∧ (3/5 : ℚ) < 1/2)
    ∧ specCrossD (1/2) (3/5) = -(1/2)
    ∧ ¬(specCrossD (1/2) (3/5) = -1 ∨ specCrossD (1/2) (3/5) = 0 ∨ specCrossD (1/2) (3/5) = 1)
    ∧ (crossD (1/2) (3/5) : ℚ) ≠ specCrossD (1/2) (3/5) := by
  have hs0 : sgn ((1:ℚ)/2 - 1/2) = 0 := sgn_of_zero (by norm_num)
  have hs1 : sgn ((3:ℚ)/5 - 1/2) = 1 := sgn_of_pos (by norm_num)
  have hspec : specCrossD (1/2) (3/5) = -(1/2) := by
    unfold specCrossD; rw [hs0, hs1]; norm_num
  have hcode : crossD (1/2) (3/5) = 0 := by
    unfold crossD; rw [hs0, hs1]; decide
  refine ⟨by norm_num, by norm_num, hspec, ?_, ?_⟩
  · rw [hspec]; norm_num
  · rw [hspec, hcode]; norm_num

/-- C6 (amended): on a quadrant that is neither saturated nor mapped by the
13-entry dictionary, the new module raises a distinct, catchable KeyError
carrying the invalid case identifier, and never stores a value for the cell
(in particular it never silently maps the quadrant area to 0); the raised
error however carries only the identifier, not the offending cell or
quadrant (see counterexample). -/
theorem invalid_case_raises (P1 P2 P3 P4 : ℚ)
    (hs1 : ¬(1/2 < P1 ∧ 1/2 < P2 ∧ 1/2 < P3 ∧ 1/2 < P4))
    (hs2 : ¬(P1 < 1/2 ∧ P2 < 1/2 ∧ P3 < 1/2 ∧ P4 < 1/2))
    (hnone : QUADRANT_CASE_DICT (caseId P1 P2 P3 P4) = none) :
    quadrantAreaCell P1 P2 P3 P4 = .error (.keyErr (caseId P1 P2 P3 P4))
    ∧ ∀ v : ℚ, quadrantAreaCell P1 P2 P3 P4 ≠ .ok v := by
  have h : quadrantAreaCell P1 P2 P3 P4 = .error (.keyErr (caseId P1 P2 P3 P4)) := by
    unfold quadrantAreaCell
    rw [if_neg hs1, if_neg hs2, hnone]
  exact ⟨h, fun v hv => by rw [h] at hv; exact Except.noConfusion hv⟩

/-- C6 witness: the all-0.5 quadrant raises the KeyError for identifier 40. -/
theorem invalid_case_raises_witness :
    quadrantAreaCell (1/2) (1/2) (1/2) (1/2)
      = .error (.keyErr (caseId (1/2) (1/2) (1/2) (1/2))) :=
  (invalid_case_raises (1/2) (1/2) (1/2) (1/2) (by norm_num) (by norm_num)
    (by
      have hC : caseId (1/2) (1/2) (1/2) (1/2) = 40 := by
        rw [caseId_eval _ _ _ _ 0 0 0 0 (sgn_of_zero (by norm_num)) (sgn_of_zero (by norm_num))
          (sgn_of_zero (by norm_num)) (sgn_of_zero (by norm_num))]
        decide
      rw [hC]
      exact dict_none_of 40 (by decide) (by decide) (by decide) (by decide) (by decide)
        (by decide) (by decide) (by decide) (by decide) (by decide) (by decide) (by decide)
        (by decide))).1

/-- C6 counterexample: two different inputs fail at different cells and
quadrants (the all-0.5 3x3 grid at cell (1,1), quadrant 1; the 3x4 step
grid at cell (1,2), quadrant 2 — its cell (1,1) succeeds in every quadrant
call reached), yet both runs raise the very same error `KeyError 40`: the
raised condition does not identify the offending cell and quadrant. -/
theorem keyErr_not_identifying_counterexample :
    SGBA_EFFR gridHalf 3 3 gridZero gridZero gridZero gridZero = .error (.keyErr 40)
    ∧ SGBA_EFFR gridStep 4 3 gridZero gridZero gridZero gridZero = .error (.keyErr 40)
    ∧ quadrantAreaCell (phiSouthWest gridHalf 1 1) (phiSouth gridHalf 1 1) (gridHalf 1 1)
        (phiWest gridHalf 1 1) = .error (.keyErr 40)
    ∧ quadrantAreaCell (phiSouthWest gridStep 1 1) (phiSouth gridStep 1 1) (gridStep 1 1)
        (phiWest gridStep 1 1) = .ok 1
    ∧ quadrantAreaCell (phiSouth gridStep 1 2) (phiSouthEast gridStep 1 2)
        (phiEast gridStep 1 2) (gridStep 1 2) = .error (.keyErr 40) := by
  obtain ⟨hsw, hs, hw, hc⟩ := half_interp_vals
  obtain ⟨a1, a2, a3, a4, a5, a6, b1, b2, b3, b4, b5, b6⟩ := step_interp_vals
  refine ⟨SGBA_EFFR_half, SGBA_EFFR_step, ?_, ?_, ?_⟩
  · rw [hsw, hs, hc, hw]; exact cell_all_half
  · rw [a1, a2, a6, a5]; exact cell_all_ones
  · rw [b2, b3, b4, b6]; exact cell_step_degenerate

/-- C7 (amended): neither function validates the declared dimensions against
the actual shape.  With declared dimensions at most the actual ones, the
bounds-checked `SGBA_WA` always completes successfully, and the
bounds-checked `SGBA_EFFR` never fails with an out-of-bounds (shape) error —
its only possible failure is the KeyError of an invalid case. -/
theorem no_shape_validation (phi : Grid) (pny pnx nx ny : ℕ) (init : Grid)
    (hy : ny ≤ pny) (hx : nx ≤ pnx) :
    (∃ S, SGBA_WA_checked phi pny pnx nx ny init = .ok S)
    ∧ ∀ i1 i2 i3 i4 : Grid,
        SGBA_EFFR_checked phi pny pnx nx ny i1 i2 i3 i4 ≠ .error .idxErr := by
  constructor
  · unfold SGBA_WA_checked
    apply foldl_waStep_exists_ok
    intro ji hji
    obtain ⟨j, i⟩ := ji
    obtain ⟨u1, u2, u3, u4⟩ := (interiorCells_mem nx ny j i).mp hji
    refine ⟨9/16 * phi j i
      + 3/32 * (phi j (i-1) + phi (j-1) i + phi j (i+1) + phi (j+1) i)
      + 1/64 * (phi (j-1) (i-1) + phi (j-1) (i+1) + phi (j+1) (i-1) + phi (j+1) (i+1)), ?_⟩
    unfold waCellChecked
    rw [if_pos (by constructor <;> omega)]
  · intro i1 i2 i3 i4
    have hcells : ∀ ji ∈ interiorCells nx ny, interpCellChecked pny pnx ji.1 ji.2 = .ok () := by
      intro ji hji
      obtain ⟨j, i⟩ := ji
      obtain ⟨u1, u2, u3, u4⟩ := (interiorCells_mem nx ny j i).mp hji
      unfold interpCellChecked
      rw [if_pos (by constructor <;> omega)]
    unfold SGBA_EFFR_checked
    rw [foldl_interpStep_ok pny pnx (interiorCells nx ny) hcells]
    exact SGBA_EFFR_no_idxErr phi nx ny i1 i2 i3 i4

/-- C7 witness: concrete instance of the amended statement. -/
theorem no_shape_validation_witness :
    (SGBA_WA_checked gridZero 5 5 3 3 gridZero).isOk = true
    ∧ SGBA_EFFR_checked gridZero 5 5 3 3 gridZero gridZero gridZero gridZero
        ≠ .error .idxErr := by
  obtain ⟨h1, h2⟩ := no_shape_validation gridZero 5 5 3 3 gridZero (by norm_num) (by norm_num)
  obtain ⟨S, hS⟩ := h1
  exact ⟨by rw [hS]; rfl, h2 gridZero gridZero gridZero gridZero⟩

/-- C7 counterexample: a call to `SGBA_WA` whose declared dimensions (3,3)
disagree with the actual grid shape (5,5) is not rejected: it completes and
computes the declared interior cell. -/
theorem shape_mismatch_not_rejected_counterexample :
    SGBA_WA_checked gridZero 5 5 3 3 gridZero = .ok (upd gridZero 1 1 0)
    ∧ (5 : ℕ) ≠ 3 := by
  constructor
  · unfold SGBA_WA_checked
    rw [show interiorCells 3 3 = [(1, 1)] from rfl, List.foldl_cons, List.foldl_nil]
    have hcell : waCellChecked gridZero 5 5 1 1 = .ok 0 := by
      unfold waCellChecked
      rw [if_pos (by norm_num)]
      norm_num [gridZero]
    unfold waStepChecked
    rw [hcell]
  · decide

/-- C8: every quadrant dispatched to a triangle or trapezoid formula has
nonzero denominators: guarding every division of every dictionary entry
with an explicit zero test changes nothing — the guarded computation equals
the unguarded one on every input and never signals a degenerate division, so
the formulas never return a division-by-zero value to the output grid. -/
theorem formulas_never_divide_by_zero (P1 P2 P3 P4 : ℚ) :
    quadrantAreaCellG P1 P2 P3 P4 = quadrantAreaCell P1 P2 P3 P4
    ∧ quadrantAreaCellG P1 P2 P3 P4 ≠ .error .divErr := by
  have h := quadrantAreaCellG_eq_cell P1 P2 P3 P4
  refine ⟨h, ?_⟩
  rw [h]
  intro hh
  exact Err.noConfusion (quadrantAreaCell_error_shape P1 P2 P3 P4 _ hh).1

/-- C9: on the 3x3 triangles grid (center 0.6, edge midpoints 0.2, corners
0), `SGBA_EFFR` completes and its center cell equals 0.125 = 1/8, and the
`SGBA_WA` center cell equals 0.4125 = 33/80. -/
theorem triangles_concrete_case (init : Grid) :
    (∀ i1 i2 i3 i4 : Grid, ∃ S : Grid,
        SGBA_EFFR gridTriangles 3 3 i1 i2 i3 i4 = .ok S ∧ S 1 1 = 1/8)
    ∧ SGBA_EFFR gridTriangles 3 3 gridZero gridZero gridZero gridZero = .ok STriangles
    ∧ STriangles 1 1 = 1/8
    ∧ SGBA_WA gridTriangles 3 3 init 1 1 = 33/80 := by
  refine ⟨SGBA_EFFR_tri, SGBA_EFFR_tri_eq, STriangles_center, ?_⟩
  rw [SGBA_WA_interior_eq gridTriangles 3 3 init 1 1 (by decide)]
  norm_num [gridTriangles]

/-- C9 witness: the statement at the concrete initial grid. -/
theorem triangles_concrete_case_witness :
    SGBA_EFFR gridTriangles 3 3 gridZero gridZero gridZero gridZero = .ok STriangles
    ∧ STriangles 1 1 = 1/8
    ∧ SGBA_WA gridTriangles 3 3 gridZero 1 1 = 33/80 :=
  ⟨(triangles_concrete_case gridZero).2.1, (triangles_concrete_case gridZero).2.2.1,
    (triangles_concrete_case gridZero).2.2.2⟩

/-- C10: on any input whose interior quadrants all either saturate or map to
one of the 13 valid case identifiers, the new `SGBA_EFFR` (subgrid module)
completes and agrees with the old `SGBA_EFFR` (`blaze.py`) at every interior
cell; the two implementations differ only in the handling of an unmapped
identifier. -/
theorem EFFR_old_new_equivalence (phi : Grid) (nx ny : ℕ) (i1 i2 i3 i4 : Grid)
    (H : ∀ j i : ℕ, Interior nx ny j i →
      OkQuad (phiSouthWest phi j i) (phiSouth phi j i) (phi j i) (phiWest phi j i)
      ∧ OkQuad (phiSouth phi j i) (phiSouthEast phi j i) (phiEast phi j i) (phi j i)
      ∧ OkQuad (phi j i) (phiEast phi j i) (phiNorthEast phi j i) (phiNorth phi j i)
      ∧ OkQuad (phiWest phi j i) (phi j i) (phiNorth phi j i) (phiNorthWest phi j i)) :
    ∃ S : Grid, SGBA_EFFR phi nx ny i1 i2 i3 i4 = .ok S ∧
      ∀ j i : ℕ, Interior nx ny j i →
        S j i = SGBA_EFFR_old phi nx ny i1 i2 i3 i4 j i := by
  have hall1 : ∀ ji ∈ interiorCells nx ny, ∃ v,
      quadrantAreaCell (phiSouthWest phi ji.1 ji.2) (phiSouth phi ji.1 ji.2)
        (phi ji.1 ji.2) (phiWest phi ji.1 ji.2) = .ok v := by
    intro ji hji
    obtain ⟨j, i⟩ := ji
    have hin := (interiorCells_mem nx ny j i).mp hji
    exact ⟨_, quadrantAreaCell_old_eq _ _ _ _ (H j i hin).1⟩
  have hall2 : ∀ ji ∈ interiorCells nx ny, ∃ v,
      quadrantAreaCell (phiSouth phi ji.1 ji.2) (phiSouthEast phi ji.1 ji.2)
        (phiEast phi ji.1 ji.2) (phi ji.1 ji.2) = .ok v := by
    intro ji hji
    obtain ⟨j, i⟩ := ji
    have hin := (interiorCells_mem nx ny j i).mp hji
    exact ⟨_, quadrantAreaCell_old_eq _ _ _ _ (H j i hin).2.1⟩
  have hall3 : ∀ ji ∈ interiorCells nx ny, ∃ v,
      quadrantAreaCell (phi ji.1 ji.2) (phiEast phi ji.1 ji.2)
        (phiNorthEast phi ji.1 ji.2) (phiNorth phi ji.1 ji.2) = .ok v := by
    intro ji hji
    obtain ⟨j, i⟩ := ji
    have hin := (interiorCells_mem nx ny j i).mp hji
    exact ⟨_, quadrantAreaCell_old_eq _ _ _ _ (H j i hin).2.2.1⟩
  have hall4 : ∀ ji ∈ interiorCells nx ny, ∃ v,
      quadrantAreaCell (phiWest phi ji.1 ji.2) (phi ji.1 ji.2)
        (phiNorth phi ji.1 ji.2) (phiNorthWest phi ji.1 ji.2) = .ok v := by
    intro ji hji
    obtain ⟨j, i⟩ := ji
    have hin := (interiorCells_mem nx ny j i).mp hji
    exact ⟨_, quadrantAreaCell_old_eq _ _ _ _ (H j i hin).2.2.2⟩
  obtain ⟨A1, hA1⟩ := foldl_quadrantStep_exists_ok (phiSouthWest phi) (phiSouth phi) phi
    (phiWest phi) (interiorCells nx ny) i1 hall1
  obtain ⟨A2, hA2⟩ := foldl_quadrantStep_exists_ok (phiSouth phi) (phiSouthEast phi)
    (phiEast phi) phi (interiorCells nx ny) i2 hall2
  obtain ⟨A3, hA3⟩ := foldl_quadrantStep_exists_ok phi (phiEast phi) (phiNorthEast phi)
    (phiNorth phi) (interiorCells nx ny) i3 hall3
  obtain ⟨A4, hA4⟩ := foldl_quadrantStep_exists_ok (phiWest phi) phi (phiNorth phi)
    (phiNorthWest phi) (interiorCells nx ny) i4 hall4
  have hA1' : computeQuadrantArea (phiSouthWest phi) (phiSouth phi) phi (phiWest phi)
      nx ny i1 = .ok A1 := hA1
  have hA2' : computeQuadrantArea (phiSouth phi) (phiSouthEast phi) (phiEast phi) phi
      nx ny i2 = .ok A2 := hA2
  have hA3' : computeQuadrantArea phi (phiEast phi) (phiNorthEast phi) (phiNorth phi)
      nx ny i3 = .ok A3 := hA3
  have hA4' : computeQuadrantArea (phiWest phi) phi (phiNorth phi) (phiNorthWest phi)
      nx ny i4 = .ok A4 := hA4
  unfold SGBA_EFFR
  rw [hA1', hA2', hA3', hA4']
  refine ⟨_, rfl, ?_⟩
  intro j i hin
  have hmem := (interiorCells_mem nx ny j i).mpr hin
  have e1 : A1 j i = quadrantAreaCellOld (phiSouthWest phi j i) (phiSouth phi j i)
      (phi j i) (phiWest phi j i) := by
    have hcell := (foldl_quadrantStep_ok _ _ _ _ (interiorCells nx ny) i1 A1 hA1').1
      (j, i) hmem
    rw [quadrantAreaCell_old_eq _ _ _ _ (H j i hin).1] at hcell
    exact (Except.ok.inj hcell).symm
  have e2 : A2 j i = quadrantAreaCellOld (phiSouth phi j i) (phiSouthEast phi j i)
      (phiEast phi j i) (phi j i) := by
    have hcell := (foldl_quadrantStep_ok _ _ _ _ (interiorCells nx ny) i2 A2 hA2').1
      (j, i) hmem
    rw [quadrantAreaCell_old_eq _ _ _ _ (H j i hin).2.1] at hcell
    exact (Except.ok.inj hcell).symm
  have e3 : A3 j i = quadrantAreaCellOld (phi j i) (phiEast phi j i)
      (phiNorthEast phi j i) (phiNorth phi j i) := by
    have hcell := (foldl_quadrantStep_ok _ _ _ _ (interiorCells nx ny) i3 A3 hA3').1
      (j, i) hmem
    rw [quadrantAreaCell_old_eq _ _ _ _ (H j i hin).2.2.1] at hcell
    exact (Except.ok.inj hcell).symm
  have e4 : A4 j i = quadrantAreaCellOld (phiWest phi j i) (phi j i)
      (phiNorth phi j i) (phiNorthWest phi j i) := by
    have hcell := (foldl_quadrantStep_ok _ _ _ _ (interiorCells nx ny) i4 A4 hA4').1
      (j, i) hmem
    rw [quadrantAreaCell_old_eq _ _ _ _ (H j i hin).2.2.2] at hcell
    exact (Except.ok.inj hcell).symm
  have o1 : computeQuadrantAreaOld (phiSouthWest phi) (phiSouth phi) phi (phiWest phi)
      nx ny i1 j i = quadrantAreaCellOld (phiSouthWest phi j i) (phiSouth phi j i)
      (phi j i) (phiWest phi j i) :=
    (foldl_quadrantStepOld (phiSouthWest phi) (phiSouth phi) phi (phiWest phi)
      (interiorCells nx ny) i1).1 (j, i) hmem
  have o2 : computeQuadrantAreaOld (phiSouth phi) (phiSouthEast phi) (phiEast phi) phi
      nx ny i2 j i = quadrantAreaCellOld (phiSouth phi j i) (phiSouthEast phi j i)
      (phiEast phi j i) (phi j i) :=
    (foldl_quadrantStepOld (phiSouth phi) (phiSouthEast phi) (phiEast phi) phi
      (interiorCells nx ny) i2).1 (j, i) hmem
  have o3 : computeQuadrantAreaOld phi (phiEast phi) (phiNorthEast phi) (phiNorth phi)
      nx ny i3 j i = quadrantAreaCellOld (phi j i) (phiEast phi j i)
      (phiNorthEast phi j i) (phiNorth phi j i) :=
    (foldl_quadrantStepOld phi (phiEast phi) (phiNorthEast phi) (phiNorth phi)
      (interiorCells nx ny) i3).1 (j, i) hmem
  have o4 : computeQuadrantAreaOld (phiWest phi) phi (phiNorth phi) (phiNorthWest phi)
      nx ny i4 j i = quadrantAreaCellOld (phiWest phi j i) (phi j i)
      (phiNorth phi j i) (phiNorthWest phi j i) :=
    (foldl_quadrantStepOld (phiWest phi) phi (phiNorth phi) (phiNorthWest phi)
      (interiorCells nx ny) i4).1 (j, i) hmem
  show 1/4 * (A1 j i + A2 j i + A3 j i + A4 j i) = _
  unfold SGBA_EFFR_old
  rw [e1, e2, e3, e4, o1, o2, o3, o4]

/-- C10 witness: on the all-zero 3x3 grid every quadrant saturates below
0.5, the new implementation completes, and its center equals the old
implementation's center. -/
theorem EFFR_old_new_equivalence_witness :
    (SGBA_EFFR gridZero 3 3 gridZero gridZero gridZero gridZero).map (fun S => S 1 1)
      = .ok (SGBA_EFFR_old gridZero 3 3 gridZero gridZero gridZero gridZero 1 1) := by
  obtain ⟨S, hS, hEq⟩ := EFFR_old_new_equivalence gridZero 3 3 gridZero gridZero gridZero
    gridZero (by
      intro j i hin
      have hq : OkQuad 0 0 0 0 := Or.inr (Or.inl (by norm_num))
      refine ⟨?_, ?_, ?_, ?_⟩ <;>
        simpa [phiSouthWest, phiSouth, phiSouthEast, phiEast, phiNorthEast, phiNorth,
          phiNorthWest, phiWest, gridZero] using hq)
  rw [hS]
  have := hEq 1 1 (by decide)
  simp [Except.map, this]
